import Mathlib

/-!
drmSlideShow: atomic mode-setting slideshow (`dis_atomic_app.c`)

A shallow embedding of the resource discovery, buffer management, commit
assembly and page-flip scheduling code of `src/dis_atomic_app.c`, followed by
theorems about it.

Conventions of the embedding

* C unsigned fields are `Nat`; where the source computes in 32 bits the
  reduction `% 2 ^ 32` is written out.  `int` results are `Int`.
* The linked list `device_list` is a `List modeset_device`, head first.
* The DRM device is a record of tables (`Drm`); a lookup that misses stands
  for the library call returning `NULL`.  Calls whose outcome may change from
  one call to the next (blob creation, property queries of
  `modeset_setup_objects`, buffer creation, the allocation of an atomic
  request, atomic commits, event dispatch) take their outcome from an explicit
  parameter.
* A failed system call leaves a positive `errno` (`Errno`).
* Kernel objects created and destroyed are recorded as a list of `Op`.
* The colour fields `r g b r_up g_up b_up` of `struct modeset_device` are
  written once from `rand()` and never read; they are left out.
-/

namespace Modeset

/-! ## Constants of the system headers -/

/-- Value of `ENOENT` in `errno.h`. -/
def ENOENT : Int := 2
/-- Value of `ENOMEM` in `errno.h`. -/
def ENOMEM : Int := 12
/-- Value of `EINVAL` in `errno.h`. -/
def EINVAL : Int := 22
/-- Value of `DRM_MODE_CONNECTED` in `xf86drmMode.h`. -/
def DRM_MODE_CONNECTED : Nat := 1
/-- Value of `DRM_PLANE_TYPE_PRIMARY` in `drm_mode.h`. -/
def DRM_PLANE_TYPE_PRIMARY : Int := 1
/-- Value of `DRM_MODE_OBJECT_PLANE` in `drm_mode.h`. -/
def DRM_MODE_OBJECT_PLANE : Nat := 0xeeeeeeee
/-- Value of `DRM_MODE_OBJECT_CRTC` in `drm_mode.h`. -/
def DRM_MODE_OBJECT_CRTC : Nat := 0xcccccccc
/-- Value of `DRM_MODE_OBJECT_CONNECTOR` in `drm_mode.h`. -/
def DRM_MODE_OBJECT_CONNECTOR : Nat := 0xc0c0c0c0
/-- Value of `DRM_MODE_PAGE_FLIP_EVENT`. -/
def DRM_MODE_PAGE_FLIP_EVENT : Nat := 0x01
/-- Value of `DRM_MODE_ATOMIC_TEST_ONLY`. -/
def DRM_MODE_ATOMIC_TEST_ONLY : Nat := 0x0100
/-- Value of `DRM_MODE_ATOMIC_NONBLOCK`. -/
def DRM_MODE_ATOMIC_NONBLOCK : Nat := 0x0200
/-- Value of `DRM_MODE_ATOMIC_ALLOW_MODESET`. -/
def DRM_MODE_ATOMIC_ALLOW_MODESET : Nat := 0x0400
/-- Value of `MAP_FAILED`, `(void *) -1` on a 64-bit target. -/
def MAP_FAILED : Nat := 2 ^ 64 - 1

/-- The `errno` left by a failed system call; it is positive. -/
abbrev Errno := { e : Nat // 0 < e }

/-- Outcome of a system call: a result, or failure with `errno`. -/
inductive Sys (α : Type) where
  | ok (a : α)
  | fail (errno : Errno)

/-! ## Kernel objects and the trace of their creation and destruction -/

/-- Kernel-side resource held on behalf of the program. -/
inductive Res where
  | dumb (handle : Nat)
  | fb (id : Nat)
  | mapping (addr : Nat)
  | blob (id : Nat)
  | props (obj_id : Nat)
  deriving DecidableEq, Repr

/-- One step of the resource trace. -/
inductive Op where
  | alloc (r : Res)
  | release (r : Res)
  deriving DecidableEq, Repr

/-- Replays a trace on a set of live resources; `none` as soon as a resource
that is not live is released. -/
def replay : List Op → List Res → Option (List Res)
  | [], live => some live
  | Op.alloc r :: ops, live => replay ops (r :: live)
  | Op.release r :: ops, live =>
    if r ∈ live then replay ops (live.erase r) else none

/-! ## Data model (`xf86drmMode.h` types and the structs of the source) -/

/-- Property of an object: the descriptor fields the source reads
(`prop_id`, `name`) and the current value (`prop_values[j]`). -/
structure drmModePropertyRes where
  prop_id : Nat
  name : String
  value : Nat
  deriving DecidableEq, Repr

/-- The fields of `drmModeEncoder` the source reads. -/
structure drmModeEncoder where
  encoder_id : Nat
  crtc_id : Nat
  possible_crtcs : Nat
  deriving DecidableEq, Repr

/-- The fields of `drmModeModeInfo` the source reads (both `uint16_t`). -/
structure drmModeModeInfo where
  hdisplay : Nat
  vdisplay : Nat
  deriving DecidableEq, Repr

/-- The fields of `drmModeConnector` the source reads; `count_modes` and
`count_encoders` are the lengths of the lists. -/
structure drmModeConnector where
  connector_id : Nat
  encoder_id : Nat
  connection : Nat
  modes : List drmModeModeInfo
  encoders : List Nat
  deriving DecidableEq, Repr

/-- The fields of `drmModePlane` the source reads. -/
structure drmModePlane where
  plane_id : Nat
  possible_crtcs : Nat
  deriving DecidableEq, Repr

/-- The fields of `drmModeRes` the source reads. -/
structure drmModeRes where
  crtcs : List Nat
  connectors : List Nat
  deriving DecidableEq, Repr

/-- Properties of one object as `drmModeObjectGetProperties` reports them. -/
structure ObjectProps where
  obj_id : Nat
  obj_type : Nat
  props : List drmModePropertyRes
  deriving DecidableEq, Repr

/-- The device topology as the DRM library reports it. -/
structure Drm where
  res : Sys drmModeRes
  connector_tbl : List drmModeConnector
  encoder_tbl : List drmModeEncoder
  plane_res : Option (List Nat)
  plane_tbl : List drmModePlane
  object_props : List ObjectProps

/-- Library call `drmModeGetConnector`. -/
def drmModeGetConnector (drm : Drm) (id : Nat) : Option drmModeConnector :=
  drm.connector_tbl.find? (fun c => c.connector_id == id)

/-- Library call `drmModeGetEncoder`. -/
def drmModeGetEncoder (drm : Drm) (id : Nat) : Option drmModeEncoder :=
  drm.encoder_tbl.find? (fun e => e.encoder_id == id)

/-- Library call `drmModeGetPlane`. -/
def drmModeGetPlane (drm : Drm) (id : Nat) : Option drmModePlane :=
  drm.plane_tbl.find? (fun p => p.plane_id == id)

/-- Library call `drmModeObjectGetProperties`. -/
def drmModeObjectGetProperties (drm : Drm) (id type : Nat) :
    Option (List drmModePropertyRes) :=
  (drm.object_props.find? (fun o => o.obj_id == id && o.obj_type == type)).map
    (fun o => o.props)

/-- What the mapped memory of a buffer shows. -/
inductive Picture where
  | blank
  | wait_text
  | boot_image
  deriving DecidableEq, Repr

/-- The source's `struct drm_object`: `props` is `none` for a `NULL` pointer,
otherwise the loaded properties (`props` together with `props_info`). -/
structure drm_object where
  props : Option (List drmModePropertyRes)
  id : Nat
  deriving DecidableEq, Repr

/-- The source's `struct modeset_buf`; `map` is the address of the mapping and
`pixels` what the memory behind it shows. -/
structure modeset_buf where
  width : Nat
  height : Nat
  size : Nat
  stride : Nat
  handle : Nat
  map : Nat
  pixels : Picture
  fb : Nat
  deriving DecidableEq, Repr

/-- The source's `struct modeset_device` without the `next` pointer. -/
structure modeset_device where
  front_buf : Nat
  bufs0 : modeset_buf
  bufs1 : modeset_buf
  connector : drm_object
  crtc : drm_object
  plane : drm_object
  mode : drmModeModeInfo
  mode_blob_id : Nat
  crtc_index : Nat
  pflip_pending : Bool
  cleanup : Bool
  deriving DecidableEq, Repr

/-- The context right after `memset(dev, 0, sizeof(*dev))`. -/
def zeroed_buf : modeset_buf :=
  { width := 0, height := 0, size := 0, stride := 0, handle := 0, map := 0,
    pixels := Picture.blank, fb := 0 }

/-- The context right after `memset(dev, 0, sizeof(*dev))`. -/
def zeroed_device : modeset_device :=
  { front_buf := 0, bufs0 := zeroed_buf, bufs1 := zeroed_buf,
    connector := { props := none, id := 0 },
    crtc := { props := none, id := 0 },
    plane := { props := none, id := 0 },
    mode := { hdisplay := 0, vdisplay := 0 },
    mode_blob_id := 0, crtc_index := 0, pflip_pending := false,
    cleanup := false }

/-- Reads `dev->bufs[i]`; the array has two elements and the source only
indexes it with 0 and 1. -/
def modeset_device.bufs (dev : modeset_device) (i : Nat) : modeset_buf :=
  if i = 0 then dev.bufs0 else dev.bufs1

/-- Writes `dev->bufs[i]`. -/
def modeset_device.set_buf (dev : modeset_device) (i : Nat)
    (b : modeset_buf) : modeset_device :=
  if i = 0 then { dev with bufs0 := b } else { dev with bufs1 := b }

/-! ## Property lookup -/

/-- Mirrors `get_property_value`: the value of the first property called
`name`, converted to `int64_t`, or `-1`.  A `NULL` property set (which the
source dereferences) is read as an empty one. -/
def get_property_value (props : Option (List drmModePropertyRes))
    (name : String) : Int :=
  match (props.getD []).find? (fun p => p.name == name) with
  | none => -1
  | some p =>
    let v : Nat := p.value % 2 ^ 64
    if v < 2 ^ 63 then (v : Int) else (v : Int) - 2 ^ 64

/-! ## CRTC and plane search -/

/-- The C expression `mask & (1 << j)` on a 32-bit mask, tested against zero.
For `j = 31` the shift yields the sign bit, which the conversion to the
unsigned mask type turns into bit 31.  For `j ≥ 32` the shift is undefined in
C; here it yields no bit, and the theorems that depend on the mask assume at
most 32 CRTCs. -/
def mask_has (mask j : Nat) : Bool :=
  (mask % 2 ^ 32) &&& ((1 <<< j) % 2 ^ 32) != 0

/-- The loop `for (iter = device_list; ...) if (iter->crtc.id == crtc)`. -/
def crtc_claimed (device_list : List modeset_device) (crtc : Nat) : Bool :=
  device_list.any (fun iter => iter.crtc.id == crtc)

/-- Inner loop of `modeset_find_crtc` over `res->crtcs[j]`, from index `j`
on: the first `(crtc, j)` that the encoder allows, that is unclaimed and
non-zero. -/
def find_crtc_scan_crtcs (device_list : List modeset_device)
    (enc : drmModeEncoder) : List Nat → Nat → Option (Nat × Nat)
  | [], _ => none
  | c :: cs, j =>
    if !mask_has enc.possible_crtcs j then
      find_crtc_scan_crtcs device_list enc cs (j + 1)
    else
      let crtc := if crtc_claimed device_list c then 0 else c
      if crtc > 0 then some (crtc, j)
      else find_crtc_scan_crtcs device_list enc cs (j + 1)

/-- Outer loop of `modeset_find_crtc` over `conn->encoders[i]`. -/
def find_crtc_scan_encoders (drm : Drm) (res : drmModeRes)
    (device_list : List modeset_device) : List Nat → Option (Nat × Nat)
  | [] => none
  | e :: es =>
    match drmModeGetEncoder drm e with
    | none => find_crtc_scan_encoders drm res device_list es
    | some enc =>
      match find_crtc_scan_crtcs device_list enc res.crtcs 0 with
      | some r => some r
      | none => find_crtc_scan_encoders drm res device_list es

/-- First part of `modeset_find_crtc`: the CRTC of the encoder the connector
is bound to, when there is one, it is non-zero and nobody claimed it. -/
def find_crtc_bound (drm : Drm) (conn : drmModeConnector)
    (device_list : List modeset_device) : Option Nat :=
  let enc := if conn.encoder_id ≠ 0 then drmModeGetEncoder drm conn.encoder_id
    else none
  match enc with
  | none => none
  | some enc =>
    if enc.crtc_id ≠ 0 then
      let crtc := if crtc_claimed device_list enc.crtc_id then 0
        else enc.crtc_id
      if crtc > 0 then some crtc else none
    else none

/-- Mirrors `modeset_find_crtc`: return code and updated context. -/
def modeset_find_crtc (drm : Drm) (res : drmModeRes) (conn : drmModeConnector)
    (device_list : List modeset_device) (dev : modeset_device) :
    Int × modeset_device :=
  match find_crtc_bound drm conn device_list with
  | some crtc => (0, { dev with crtc := { dev.crtc with id := crtc } })
  | none =>
    match find_crtc_scan_encoders drm res device_list conn.encoders with
    | some (crtc, j) =>
      (0, { dev with crtc := { dev.crtc with id := crtc }, crtc_index := j })
    | none => (-ENOENT, dev)

/-- Loop of `modeset_find_plane` over `plane_res->planes[i]`: the first plane
that can be retrieved, allows CRTC index `crtc_index` and is primary. -/
def find_plane_loop (drm : Drm) (crtc_index : Nat) : List Nat → Option Nat
  | [] => none
  | plane_id :: rest =>
    match drmModeGetPlane drm plane_id with
    | none => find_plane_loop drm crtc_index rest
    | some plane =>
      if mask_has plane.possible_crtcs crtc_index then
        if get_property_value
            (drmModeObjectGetProperties drm plane_id DRM_MODE_OBJECT_PLANE)
            "type" = DRM_PLANE_TYPE_PRIMARY then
          some plane_id
        else find_plane_loop drm crtc_index rest
      else find_plane_loop drm crtc_index rest

/-- Mirrors `modeset_find_plane`: return code and updated context. -/
def modeset_find_plane (drm : Drm) (dev : modeset_device) :
    Int × modeset_device :=
  match drm.plane_res with
  | none => (-ENOENT, dev)
  | some planes =>
    match find_plane_loop drm dev.crtc_index planes with
    | some plane_id => (0, { dev with plane := { dev.plane with id := plane_id } })
    | none => (-EINVAL, dev)

/-! ## Property caches -/

/-- Mirrors `modeset_get_object_properties`: `result` is what
`drmModeObjectGetProperties` (with the per-property `drmModeGetProperty`)
answers for this object. -/
def modeset_get_object_properties (result : Option (List drmModePropertyRes))
    (obj : drm_object) : drm_object × List Op :=
  match result with
  | none => ({ obj with props := none }, [])
  | some ps => ({ obj with props := some ps }, [Op.alloc (Res.props obj.id)])

/-- Mirrors `modeset_drm_object_finish`: frees the property cache of `obj`.
The source does not test `obj->props`; the trace records the release whether
or not the cache is there. -/
def modeset_drm_object_finish (obj : drm_object) : List Op :=
  [Op.release (Res.props obj.id)]

/-- Outcomes of the three property queries of `modeset_setup_objects`. -/
structure ObjectsOracle where
  connector_props : Option (List drmModePropertyRes)
  crtc_props : Option (List drmModePropertyRes)
  plane_props : Option (List drmModePropertyRes)

/-- Mirrors `modeset_setup_objects`. -/
def modeset_setup_objects (o : ObjectsOracle) (dev : modeset_device) :
    Int × modeset_device × List Op :=
  let c := modeset_get_object_properties o.connector_props dev.connector
  let dev1 := { dev with connector := c.1 }
  if c.1.props.isNone then (-ENOMEM, dev1, c.2)
  else
    let r := modeset_get_object_properties o.crtc_props dev1.crtc
    let dev2 := { dev1 with crtc := r.1 }
    if r.1.props.isNone then
      (-ENOMEM, dev2, c.2 ++ r.2 ++ modeset_drm_object_finish dev2.connector)
    else
      let p := modeset_get_object_properties o.plane_props dev2.plane
      let dev3 := { dev2 with plane := p.1 }
      if p.1.props.isNone then
        (-ENOMEM, dev3, c.2 ++ r.2 ++ p.2 ++ modeset_drm_object_finish dev3.crtc
          ++ modeset_drm_object_finish dev3.connector)
      else (0, dev3, c.2 ++ r.2 ++ p.2)

/-- Mirrors `modeset_destroy_objects`. -/
def modeset_destroy_objects (dev : modeset_device) : List Op :=
  modeset_drm_object_finish dev.connector ++ modeset_drm_object_finish dev.crtc
    ++ modeset_drm_object_finish dev.plane

/-! ## Buffers -/

/-- Answer of `DRM_IOCTL_MODE_CREATE_DUMB`. -/
structure CreateDumb where
  pitch : Nat
  handle : Nat
  size : Nat

/-- Outcomes of the four kernel calls of one `modeset_create_fb`. -/
structure FbOracle where
  create_dumb : Sys CreateDumb
  add_fb : Sys Nat
  map_dumb : Sys Nat
  mmap : Sys Nat

/-- The label `err_destroy` of `modeset_create_fb`. -/
def create_fb_err_destroy (buf : modeset_buf) : List Op :=
  [Op.release (Res.dumb buf.handle)]

/-- The label `err_fb` of `modeset_create_fb`, falling through to
`err_destroy`. -/
def create_fb_err_fb (buf : modeset_buf) : List Op :=
  Op.release (Res.fb buf.fb) :: create_fb_err_destroy buf

/-- Mirrors `modeset_create_fb`: return code, updated buffer, resource
trace. -/
def modeset_create_fb (o : FbOracle) (buf : modeset_buf) :
    Int × modeset_buf × List Op :=
  match o.create_dumb with
  | Sys.fail e => (-(e.val : Int), buf, [])
  | Sys.ok creq =>
    let buf1 := { buf with stride := creq.pitch, handle := creq.handle,
                           size := creq.size }
    let t1 := [Op.alloc (Res.dumb creq.handle)]
    match o.add_fb with
    | Sys.fail e => (-(e.val : Int), buf1, t1 ++ create_fb_err_destroy buf1)
    | Sys.ok fb =>
      let buf2 := { buf1 with fb := fb }
      let t2 := t1 ++ [Op.alloc (Res.fb fb)]
      match o.map_dumb with
      | Sys.fail e => (-(e.val : Int), buf2, t2 ++ create_fb_err_fb buf2)
      | Sys.ok _ =>
        match o.mmap with
        | Sys.fail e =>
          let buf3 := { buf2 with map := MAP_FAILED }
          (-(e.val : Int), buf3, t2 ++ create_fb_err_fb buf3)
        | Sys.ok addr =>
          let buf3 := { buf2 with map := addr, pixels := Picture.blank }
          (0, buf3, t2 ++ [Op.alloc (Res.mapping addr)])

/-- Mirrors `modeset_destroy_fb`. -/
def modeset_destroy_fb (buf : modeset_buf) : List Op :=
  [Op.release (Res.mapping buf.map), Op.release (Res.fb buf.fb),
   Op.release (Res.dumb buf.handle)]

/-- The mode `conn->modes[0]`; the source reads it only after checking
`count_modes`. -/
def first_mode (conn : drmModeConnector) : drmModeModeInfo :=
  conn.modes.headD { hdisplay := 0, vdisplay := 0 }

/-- Mirrors `modeset_setup_framebuffer`: the loop over the two slots, written
out. -/
def modeset_setup_framebuffer (o0 o1 : FbOracle) (conn : drmModeConnector)
    (dev : modeset_device) : Int × modeset_device × List Op :=
  let b0 := { dev.bufs 0 with width := (first_mode conn).hdisplay,
                              height := (first_mode conn).vdisplay }
  let r0 := modeset_create_fb o0 b0
  let dev0 := dev.set_buf 0 r0.2.1
  if r0.1 ≠ 0 then (r0.1, dev0, r0.2.2)
  else
    let b1 := { dev0.bufs 1 with width := (first_mode conn).hdisplay,
                                 height := (first_mode conn).vdisplay }
    let r1 := modeset_create_fb o1 b1
    let dev1 := dev0.set_buf 1 r1.2.1
    if r1.1 ≠ 0 then
      (r1.1, dev1, r0.2.2 ++ r1.2.2 ++ modeset_destroy_fb (dev1.bufs 0))
    else (0, dev1, r0.2.2 ++ r1.2.2)

/-! ## Contexts -/

/-- Mirrors `modeset_device_destory`. -/
def modeset_device_destory (dev : modeset_device) : List Op :=
  modeset_destroy_objects dev ++ modeset_destroy_fb (dev.bufs 0)
    ++ modeset_destroy_fb (dev.bufs 1) ++ [Op.release (Res.blob dev.mode_blob_id)]

/-- Outcomes of the kernel calls of one `modeset_device_create` that are not
part of the static topology. -/
structure CreateOracle where
  blob : Option Nat
  objects : ObjectsOracle
  fb0 : FbOracle
  fb1 : FbOracle

/-- Mirrors `modeset_device_create`: the new context (`none` for `NULL`) and
the resource trace.  The labels `dev_obj`, `dev_blob`, `dev_error` are the
traces appended on the failure paths. -/
def modeset_device_create (drm : Drm) (res : drmModeRes)
    (conn : drmModeConnector) (o : CreateOracle)
    (device_list : List modeset_device) : Option modeset_device × List Op :=
  let dev := { zeroed_device with
    connector := { zeroed_device.connector with id := conn.connector_id } }
  if conn.connection ≠ DRM_MODE_CONNECTED then (none, [])
  else if conn.modes.length = 0 then (none, [])
  else
    let dev := { dev with mode := first_mode conn }
    match o.blob with
    | none => (none, [])
    | some blob_id =>
      let dev := { dev with mode_blob_id := blob_id }
      let t0 := [Op.alloc (Res.blob blob_id)]
      let dev_blob := [Op.release (Res.blob dev.mode_blob_id)]
      let c := modeset_find_crtc drm res conn device_list dev
      if c.1 ≠ 0 then (none, t0 ++ dev_blob)
      else
        let p := modeset_find_plane drm c.2
        if p.1 ≠ 0 then (none, t0 ++ dev_blob)
        else
          let s := modeset_setup_objects o.objects p.2
          if s.1 ≠ 0 then
            (none, t0 ++ s.2.2 ++ modeset_destroy_objects s.2.1 ++ dev_blob)
          else
            let f := modeset_setup_framebuffer o.fb0 o.fb1 conn s.2.1
            if f.1 ≠ 0 then
              (none, t0 ++ s.2.2 ++ f.2.2 ++ modeset_destroy_objects f.2.1
                ++ dev_blob)
            else (some f.2.1, t0 ++ s.2.2 ++ f.2.2)

/-- Loop of `modeset_prepare` over `res->connectors[i]`, from index `i` on;
`o i` holds the outcomes for the `i`-th connector. -/
def prepare_loop (drm : Drm) (res : drmModeRes) (o : Nat → CreateOracle) :
    List Nat → Nat → List modeset_device × List Op →
    List modeset_device × List Op
  | [], _, st => st
  | c :: cs, i, st =>
    match drmModeGetConnector drm c with
    | none => prepare_loop drm res o cs (i + 1) st
    | some conn =>
      let r := modeset_device_create drm res conn (o i) st.1
      match r.1 with
      | none => prepare_loop drm res o cs (i + 1) (st.1, st.2 ++ r.2)
      | some dev => prepare_loop drm res o cs (i + 1) (dev :: st.1, st.2 ++ r.2)

/-- Mirrors `modeset_prepare`: return code, the new `device_list` and the
resource trace. -/
def modeset_prepare (drm : Drm) (o : Nat → CreateOracle)
    (device_list : List modeset_device) :
    Int × List modeset_device × List Op :=
  match drm.res with
  | Sys.fail e => (-(e.val : Int), device_list, [])
  | Sys.ok res =>
    let r := prepare_loop drm res o res.connectors 0 (device_list, [])
    if r.1.isEmpty then (-1, r.1, r.2) else (0, r.1, r.2)

/-! ## Commit builder -/

/-- One `(object id, property id, value)` triple of an atomic request. -/
structure AtomicItem where
  object_id : Nat
  property_id : Nat
  value : Nat
  deriving DecidableEq, Repr

/-- Number of items by which libdrm grows the item array of a request,
`getpagesize() / sizeof(*req->items)`: 256 with 4 KiB pages and 16-byte
items.  The theorems speak of `capacity` and hold for any value. -/
def item_size_inc : Nat := 256

/-- The library's `struct _drmModeAtomicReq`: the items added so far in order
(`cursor` is their number) and `size_items`, the number of items the array
has room for.  `grants` is the allocator's part of the story: how many of the
coming `realloc` calls for this request succeed. -/
structure drmModeAtomicReq where
  items : List AtomicItem
  size_items : Nat
  grants : Nat
  deriving DecidableEq, Repr

/-- The library's `drmModeAtomicReqPtr`; `none` is `NULL`. -/
abbrev drmModeAtomicReqPtr := Option drmModeAtomicReq

/-- Library call `drmModeAtomicAlloc`.  `alloc` is what the allocator does for
this request: `none` when `malloc` fails and the call returns `NULL`,
`some g` when it succeeds and `g` later `realloc` calls will succeed. -/
def drmModeAtomicAlloc (alloc : Option Nat) : drmModeAtomicReqPtr :=
  alloc.map (fun g => { items := [], size_items := 0, grants := g })

/-- Library call `drmModeAtomicAddProperty`: `-EINVAL` for a `NULL` request
and for a zero object or property id; when the array is full it is grown by
`item_size_inc` items, `-ENOMEM` if that fails; otherwise the item is stored
and the new item count returned. -/
def drmModeAtomicAddProperty (req : drmModeAtomicReqPtr)
    (object_id property_id value : Nat) : Int × drmModeAtomicReqPtr :=
  let item : AtomicItem :=
    { object_id := object_id, property_id := property_id, value := value }
  match req with
  | none => (-EINVAL, none)
  | some r =>
    if object_id = 0 ∨ property_id = 0 then (-EINVAL, some r)
    else if r.size_items ≤ r.items.length then
      if r.grants = 0 then (-ENOMEM, some r)
      else
        (((r.items.length + 1 : Nat) : Int),
          some { items := r.items ++ [item],
                 size_items := r.size_items + item_size_inc,
                 grants := r.grants - 1 })
    else
      (((r.items.length + 1 : Nat) : Int),
        some { r with items := r.items ++ [item] })

/-- The loop of `set_drm_object_property`: the id of the first property of
`obj` called `name`, or 0.  A `NULL` cache is read as an empty one. -/
def find_prop_id (obj : drm_object) (name : String) : Nat :=
  match (obj.props.getD []).find? (fun p => p.name == name) with
  | some p => p.prop_id
  | none => 0

/-- Mirrors `set_drm_object_property`. -/
def set_drm_object_property (req : drmModeAtomicReqPtr) (obj : drm_object)
    (name : String) (value : Nat) : Int × drmModeAtomicReqPtr :=
  if find_prop_id obj name = 0 then (-EINVAL, req)
  else drmModeAtomicAddProperty req obj.id (find_prop_id obj name) value

/-- The arguments of the thirteen `set_drm_object_property` calls of
`modeset_atomic_prepare_commit`, in source order.  `buf->width << 16` is a
32-bit shift. -/
def commit_assignments (dev : modeset_device) :
    List (drm_object × String × Nat) :=
  let plane := dev.plane
  let buf := dev.bufs (dev.front_buf ^^^ 1)
  [ (dev.connector, "CRTC_ID", dev.crtc.id),
    (dev.crtc, "MODE_ID", dev.mode_blob_id),
    (dev.crtc, "ACTIVE", 1),
    (plane, "FB_ID", buf.fb),
    (plane, "CRTC_ID", dev.crtc.id),
    (plane, "SRC_X", 0),
    (plane, "SRC_Y", 0),
    (plane, "SRC_W", (buf.width <<< 16) % 2 ^ 32),
    (plane, "SRC_H", (buf.height <<< 16) % 2 ^ 32),
    (plane, "CRTC_X", 0),
    (plane, "CRTC_Y", 0),
    (plane, "CRTC_W", buf.width),
    (plane, "CRTC_H", buf.height) ]

/-- The chain `if (set_drm_object_property(...) < 0) return -1;` over a list
of calls, ending in `return 0`. -/
def set_properties : List (drm_object × String × Nat) → drmModeAtomicReqPtr →
    Int × drmModeAtomicReqPtr
  | [], req => (0, req)
  | (obj, name, value) :: rest, req =>
    let r := set_drm_object_property req obj name value
    if r.1 < 0 then (-1, r.2) else set_properties rest r.2

/-- Mirrors `modeset_atomic_prepare_commit`. -/
def modeset_atomic_prepare_commit (dev : modeset_device)
    (req : drmModeAtomicReqPtr) : Int × drmModeAtomicReqPtr :=
  set_properties (commit_assignments dev) req

/-! ## Painting and the flip scheduler -/

/-- Mirrors `modeset_draw_framebuffer`: paints `bufs[front_buf ^ 1]`; the
global `cnt_call` selects the picture and is advanced on the first call. -/
def modeset_draw_framebuffer (cnt_call : Int) (dev : modeset_device) :
    Int × modeset_device :=
  let i := dev.front_buf ^^^ 1
  let buf := dev.bufs i
  if cnt_call ≤ 1 then
    (cnt_call + 1, dev.set_buf i { buf with pixels := Picture.wait_text })
  else
    (cnt_call, dev.set_buf i { buf with pixels := Picture.boot_image })

/-- One call of `drmModeAtomicCommit`: the request, the flags, the value the
kernel returned, and the contexts the request was built from as they were at
the call. -/
structure CommitCall where
  req : drmModeAtomicReqPtr
  flags : Nat
  ret : Int
  outputs : List modeset_device
  deriving DecidableEq, Repr

/-- Global state of the program (`device_list`, `cnt_call`) together with the
trace of the `drmModeAtomicCommit` calls made so far, oldest first. -/
structure World where
  device_list : List modeset_device
  cnt_call : Int
  commits : List CommitCall
  deriving DecidableEq, Repr

/-- Mirrors `modeset_draw_output`; `alloc` is the allocator's answer for the
request (see `drmModeAtomicAlloc`) and `commit_ret` what `drmModeAtomicCommit`
returns if it is called.  Result: `cnt_call`, the context, the call made. -/
def modeset_draw_output (alloc : Option Nat) (commit_ret : Int) (cnt_call : Int)
    (dev : modeset_device) : Int × modeset_device × Option CommitCall :=
  let d := modeset_draw_framebuffer cnt_call dev
  let req := drmModeAtomicAlloc alloc
  let p := modeset_atomic_prepare_commit d.2 req
  if p.1 < 0 then (d.1, d.2, none)
  else
    let call : CommitCall :=
      { req := p.2,
        flags := DRM_MODE_PAGE_FLIP_EVENT ||| DRM_MODE_ATOMIC_NONBLOCK,
        ret := commit_ret, outputs := [d.2] }
    if commit_ret < 0 then (d.1, d.2, some call)
    else
      (d.1, { d.2 with front_buf := d.2.front_buf ^^^ 1, pflip_pending := true },
        some call)

/-- The first context of the list with the given CRTC id, with the contexts
before and after it. -/
def find_device (crtc_id : Nat) : List modeset_device →
    Option (List modeset_device × modeset_device × List modeset_device)
  | [] => none
  | iter :: rest =>
    if iter.crtc.id = crtc_id then some ([], iter, rest)
    else
      match find_device crtc_id rest with
      | none => none
      | some (pre, dev, post) => some (iter :: pre, dev, post)

/-- Mirrors `modeset_page_flip_event`; `alloc` and `commit_ret` are the
outcomes for the `modeset_draw_output` call it may make. -/
def modeset_page_flip_event (alloc : Option Nat) (commit_ret : Int)
    (crtc_id : Nat) (w : World) : World :=
  match find_device crtc_id w.device_list with
  | none => w
  | some (pre, dev, post) =>
    let dev1 := { dev with pflip_pending := false }
    if !dev1.cleanup then
      let r := modeset_draw_output alloc commit_ret w.cnt_call dev1
      { device_list := pre ++ r.2.1 :: post, cnt_call := r.1,
        commits := w.commits ++ r.2.2.toList }
    else { w with device_list := pre ++ dev1 :: post }

/-- Values `modeset_perform_modeset` gets from outside: the allocator's answer
for the request (see `drmModeAtomicAlloc`), the content of the uninitialised
local `ret` (read when `device_list` is empty) and the results of the two
commits. -/
structure ModesetOracle where
  alloc : Option Nat
  ret_uninit : Int
  test_ret : Int
  real_ret : Int

/-- First loop of `modeset_perform_modeset`: every context adds its
assignments to the one request; stops at the first failure. -/
def perform_modeset_prepare : List modeset_device → Int → drmModeAtomicReqPtr →
    Int × drmModeAtomicReqPtr
  | [], ret, req => (ret, req)
  | iter :: rest, _, req =>
    let r := modeset_atomic_prepare_commit iter req
    if r.1 < 0 then (r.1, r.2) else perform_modeset_prepare rest r.1 r.2

/-- Second loop of `modeset_perform_modeset`: paints every context. -/
def perform_modeset_draw : List modeset_device → Int →
    Int × List modeset_device
  | [], cnt_call => (cnt_call, [])
  | iter :: rest, cnt_call =>
    let d := modeset_draw_framebuffer cnt_call iter
    let r := perform_modeset_draw rest d.1
    (r.1, d.2 :: r.2)

/-- Mirrors `modeset_perform_modeset`. -/
def modeset_perform_modeset (o : ModesetOracle) (w : World) : Int × World :=
  let req := drmModeAtomicAlloc o.alloc
  let p := perform_modeset_prepare w.device_list o.ret_uninit req
  if p.1 < 0 then (p.1, w)
  else
    let test : CommitCall :=
      { req := p.2,
        flags := DRM_MODE_ATOMIC_TEST_ONLY ||| DRM_MODE_ATOMIC_ALLOW_MODESET,
        ret := o.test_ret, outputs := w.device_list }
    if o.test_ret < 0 then (o.test_ret, { w with commits := w.commits ++ [test] })
    else
      let d := perform_modeset_draw w.device_list w.cnt_call
      let real : CommitCall :=
        { req := p.2,
          flags := DRM_MODE_PAGE_FLIP_EVENT ||| DRM_MODE_ATOMIC_ALLOW_MODESET,
          ret := o.real_ret, outputs := d.2 }
      (o.real_ret,
        { device_list := d.2, cnt_call := d.1,
          commits := w.commits ++ [test, real] })

/-- One completion event as `drmHandleEvent` hands it to the handler, with the
outcomes of the request allocation and of the commit the handler may make. -/
structure FlipEvent where
  crtc_id : Nat
  alloc : Option Nat
  commit_ret : Int
  deriving DecidableEq, Repr

/-- Outcome of one `drmHandleEvent` call: an error (nothing dispatched), or
the events it dispatched before returning 0. -/
inductive HandleEvent where
  | error
  | dispatched (events : List FlipEvent)
  deriving DecidableEq, Repr

/-- Library call `drmHandleEvent` with `page_flip_handler2` set to
`modeset_page_flip_event`. -/
def drmHandleEvent (h : HandleEvent) (w : World) : Int × World :=
  match h with
  | HandleEvent.error => (-1, w)
  | HandleEvent.dispatched events =>
    (0, events.foldl
      (fun w e => modeset_page_flip_event e.alloc e.commit_ret e.crtc_id w) w)

/-- Mirrors `modeset_draw`. -/
def modeset_draw (o : ModesetOracle) (h : HandleEvent) (w : World) : World :=
  (drmHandleEvent h (modeset_perform_modeset o w).2).2

/-- What `modeset_cleanup` did: the final globals, the contexts handed to
`modeset_device_destory` (as they were at that call, in order), the resource
trace, and whether it is stuck in `drmHandleEvent` with no event to come. -/
structure CleanupResult where
  world : World
  destroyed : List modeset_device
  ops : List Op
  blocked : Bool
  deriving DecidableEq, Repr

/-- The test `iter->pflip_pending` for `iter`, the head of `device_list`. -/
def head_pending (w : World) : Bool :=
  match w.device_list with
  | [] => false
  | iter :: _ => iter.pflip_pending

/-- Inner loop of `modeset_cleanup`: `while (iter->pflip_pending)` with the
`break` on an error.  Consumes one outcome per `drmHandleEvent` call; the
flag is true when the outcomes run out while the loop still waits. -/
def cleanup_wait : List HandleEvent → World → World × List HandleEvent × Bool
  | [], w => (w, [], head_pending w)
  | h :: hs, w =>
    if head_pending w then
      let r := drmHandleEvent h w
      if r.1 ≠ 0 then (r.2, hs, false) else cleanup_wait hs r.2
    else (w, h :: hs, false)

/-- Outer loop of `modeset_cleanup`; `n` bounds the number of iterations and
the length of `device_list` is enough. -/
def cleanup_loop : Nat → List HandleEvent → CleanupResult → CleanupResult
  | 0, _, st => st
  | n + 1, hs, st =>
    match st.world.device_list with
    | [] => st
    | iter :: rest =>
      let w1 := { st.world with
        device_list := { iter with cleanup := true } :: rest }
      let r := cleanup_wait hs w1
      if r.2.2 then { st with world := r.1, blocked := true }
      else
        match r.1.device_list with
        | [] => { st with world := r.1 }
        | iter :: next =>
          cleanup_loop n r.2.1
            { world := { r.1 with device_list := next },
              destroyed := st.destroyed ++ [iter],
              ops := st.ops ++ modeset_device_destory iter,
              blocked := false }

/-- Mirrors `modeset_cleanup`; `hs` are the outcomes of the successive
`drmHandleEvent` calls. -/
def modeset_cleanup (hs : List HandleEvent) (w : World) : CleanupResult :=
  cleanup_loop w.device_list.length hs
    { world := w, destroyed := [], ops := [], blocked := false }

/-- Outcomes met by one run of the program after discovery. -/
structure RunOracle where
  modeset : ModesetOracle
  first : HandleEvent
  shutdown : List HandleEvent

/-- The part of `main` after `modeset_prepare`: `modeset_draw`, then (after
the signal loop, which touches none of the state) `modeset_cleanup`. -/
def run (o : RunOracle) (w : World) : CleanupResult :=
  modeset_cleanup o.shutdown (modeset_draw o.modeset o.first w)

/-! ## Definitions used by the statements -/

/-- The fields of a context fixed by the CRTC and plane search and the
scheduler flags. -/
def kept_fields (dev : modeset_device) : Nat × Nat × Nat × Bool × Bool × Nat :=
  (dev.crtc.id, dev.plane.id, dev.crtc_index, dev.pflip_pending, dev.cleanup,
    dev.front_buf)

/-- Spec side of the CRTC search: the pairs (CRTC index, CRTC id) one encoder
offers, in index order: the mask marks the index as possible and no context
of `device_list` holds the CRTC. -/
def encoder_candidates (dl : List modeset_device) (enc : drmModeEncoder) :
    List (Nat × Nat) → List (Nat × Nat) :=
  List.filter (fun jc => enc.possible_crtcs.testBit jc.1 &&
    decide (jc.2 ∉ dl.map (fun d => d.crtc.id)))

/-- Spec side of the CRTC search: every encoder the connector could use, in
the connector's order, and for each the CRTCs it offers in index order. -/
def crtc_candidates (drm : Drm) (res : drmModeRes) (conn : drmModeConnector)
    (dl : List modeset_device) : List (Nat × Nat) :=
  (conn.encoders.filterMap (drmModeGetEncoder drm)).flatMap
    (fun enc => encoder_candidates dl enc res.crtcs.enum)

/-- Spec side of the CRTC search: `c` is the CRTC of the encoder the connector
is bound to, it is non-zero and no context holds it. -/
def bound_available (drm : Drm) (conn : drmModeConnector)
    (dl : List modeset_device) (c : Nat) : Prop :=
  conn.encoder_id ≠ 0 ∧ ∃ enc, drmModeGetEncoder drm conn.encoder_id = some enc ∧
    enc.crtc_id = c ∧ c ≠ 0 ∧ ∀ d ∈ dl, d.crtc.id ≠ c

/-- The test `get_property_value(fd, props, "type") == DRM_PLANE_TYPE_PRIMARY`
of `modeset_find_plane` for the plane `plane_id`. -/
def plane_is_primary (drm : Drm) (plane_id : Nat) : Bool :=
  get_property_value
    (drmModeObjectGetProperties drm plane_id DRM_MODE_OBJECT_PLANE) "type"
    = DRM_PLANE_TYPE_PRIMARY

/-- Spec side of the plane search: the first plane in enumeration order whose
`possible_crtcs` has the bit of CRTC index `i` set and whose "type" property
equals primary. -/
def first_primary_plane (drm : Drm) (i : Nat) : Option Nat :=
  (drm.plane_res.getD []).find? (fun plane_id =>
    match drmModeGetPlane drm plane_id with
    | none => false
    | some plane => plane.possible_crtcs.testBit i && plane_is_primary drm plane_id)

/-- No primary plane of the device is compatible with more than one CRTC. -/
def primary_planes_exclusive (drm : Drm) : Prop :=
  ∀ p ∈ drm.plane_tbl, plane_is_primary drm p.plane_id = true →
    ∀ j1 < 32, ∀ j2 < 32, p.possible_crtcs.testBit j1 = true →
      p.possible_crtcs.testBit j2 = true → j1 = j2

/-- The plane of a context fits: `crtc_index` is a bit position of the mask,
the plane can be retrieved, its mask has the bit `crtc_index` set and it is
primary. -/
def plane_fits (drm : Drm) (d : modeset_device) : Prop :=
  d.crtc_index < 32 ∧
  ∃ plane, drmModeGetPlane drm d.plane.id = some plane ∧
    plane.possible_crtcs.testBit d.crtc_index = true ∧
    plane_is_primary drm d.plane.id = true

/-- The object carries a property called `name` that the lookup of
`set_drm_object_property` finds (property ids of the device are non-zero). -/
abbrev carries (obj : drm_object) (name : String) : Prop :=
  find_prop_id obj name ≠ 0

/-- The names `modeset_atomic_prepare_commit` sets on the plane. -/
def plane_property_names : List String :=
  ["FB_ID", "CRTC_ID", "SRC_X", "SRC_Y", "SRC_W", "SRC_H", "CRTC_X", "CRTC_Y",
   "CRTC_W", "CRTC_H"]

/-- One assignment of a batch: `name` of object `obj` is set to `value`. -/
def assign (obj : drm_object) (name : String) (value : Nat) : AtomicItem :=
  { object_id := obj.id, property_id := find_prop_id obj name, value := value }

/-- The items of a request; a `NULL` request has none. -/
def req_items (req : drmModeAtomicReqPtr) : List AtomicItem :=
  match req with
  | none => []
  | some r => r.items

/-- Number of items the request can hold in the end: the room it has plus
what the allocator will still grant. -/
def capacity (r : drmModeAtomicReq) : Nat :=
  r.size_items + r.grants * item_size_inc

/-- The request is allocated and can take `n` more items. -/
def has_room (req : drmModeAtomicReqPtr) (n : Nat) : Prop :=
  ∃ r, req = some r ∧ r.items.length + n ≤ capacity r

/-- The thirteen assignments `modeset_atomic_prepare_commit` adds for a
context, in source order, written with the back buffer `bufs[front_buf ^ 1]`. -/
def commit_items (dev : modeset_device) : List AtomicItem :=
  [ assign dev.connector "CRTC_ID" dev.crtc.id,
    assign dev.crtc "MODE_ID" dev.mode_blob_id,
    assign dev.crtc "ACTIVE" 1,
    assign dev.plane "FB_ID" (dev.bufs (dev.front_buf ^^^ 1)).fb,
    assign dev.plane "CRTC_ID" dev.crtc.id,
    assign dev.plane "SRC_X" 0,
    assign dev.plane "SRC_Y" 0,
    assign dev.plane "SRC_W"
      (((dev.bufs (dev.front_buf ^^^ 1)).width <<< 16) % 2 ^ 32),
    assign dev.plane "SRC_H"
      (((dev.bufs (dev.front_buf ^^^ 1)).height <<< 16) % 2 ^ 32),
    assign dev.plane "CRTC_X" 0,
    assign dev.plane "CRTC_Y" 0,
    assign dev.plane "CRTC_W" (dev.bufs (dev.front_buf ^^^ 1)).width,
    assign dev.plane "CRTC_H" (dev.bufs (dev.front_buf ^^^ 1)).height ]

/-- The plane properties the claim about the batch names: the eight of the
ten properties set on the plane that are not the source size. -/
def batch_claim_plane_names : List String :=
  ["CRTC_ID", "SRC_X", "SRC_Y", "CRTC_X", "CRTC_Y", "CRTC_W", "CRTC_H", "FB_ID"]

/-- A sequence of `modeset_draw_output` calls for one output; `rets` holds
for each call the allocator's answer for the request and what
`drmModeAtomicCommit` returns.  The state is `cnt_call`, the context and the
trace of the commit calls made. -/
def draw_output_seq : List (Option Nat × Int) →
    Int × modeset_device × List CommitCall →
    Int × modeset_device × List CommitCall
  | [], st => st
  | r :: rs, st =>
    let d := modeset_draw_output r.1 r.2 st.1 st.2.1
    draw_output_seq rs (d.1, d.2.1, st.2.2 ++ d.2.2.toList)

/-- Number of successfully issued commits of a trace: the calls of
`drmModeAtomicCommit` that did not return a negative value. -/
def issued (calls : List CommitCall) : Nat :=
  (calls.filter (fun c => decide (0 ≤ c.ret))).length

/-- Every commit call of the trace was made for contexts whose
`pflip_pending` was false at the call. -/
def idle_calls (calls : List CommitCall) : Prop :=
  ∀ c ∈ calls, ∀ d ∈ c.outputs, d.pflip_pending = false

/-- The dimension fields of the two buffers of a context:
`((bufs[0].width, bufs[0].height), (bufs[1].width, bufs[1].height))`. -/
def buf_dims (d : modeset_device) : (Nat × Nat) × (Nat × Nat) :=
  ((d.bufs0.width, d.bufs0.height), (d.bufs1.width, d.bufs1.height))

/-- Some step of one buffer creation fails: the dumb-buffer creation, the
framebuffer registration, the map preparation or the `mmap`. -/
def fb_fails (o : FbOracle) : Prop :=
  (∃ e, o.create_dumb = Sys.fail e) ∨ (∃ e, o.add_fb = Sys.fail e) ∨
  (∃ e, o.map_dumb = Sys.fail e) ∨ (∃ e, o.mmap = Sys.fail e)

/-! ## Example devices -/

/-- Properties of a plane of the examples: a primary plane that carries every
property the commit builder names. -/
def ex_plane_props : List drmModePropertyRes :=
  [ { prop_id := 8, name := "type", value := 1 },
    { prop_id := 17, name := "FB_ID", value := 0 },
    { prop_id := 20, name := "CRTC_ID", value := 0 },
    { prop_id := 9, name := "SRC_X", value := 0 },
    { prop_id := 10, name := "SRC_Y", value := 0 },
    { prop_id := 11, name := "SRC_W", value := 0 },
    { prop_id := 12, name := "SRC_H", value := 0 },
    { prop_id := 13, name := "CRTC_X", value := 0 },
    { prop_id := 14, name := "CRTC_Y", value := 0 },
    { prop_id := 15, name := "CRTC_W", value := 0 },
    { prop_id := 16, name := "CRTC_H", value := 0 } ]

/-- Properties of a connector of the examples. -/
def ex_connector_props : List drmModePropertyRes :=
  [ { prop_id := 1, name := "EDID", value := 0 },
    { prop_id := 20, name := "CRTC_ID", value := 0 } ]

/-- Properties of a CRTC of the examples. -/
def ex_crtc_props : List drmModePropertyRes :=
  [ { prop_id := 22, name := "ACTIVE", value := 0 },
    { prop_id := 23, name := "MODE_ID", value := 0 } ]

/-- Kernel answers of a buffer creation that succeeds, with handle `h`. -/
def ex_fb_ok (h : Nat) : FbOracle :=
  { create_dumb := Sys.ok { pitch := 7680, handle := h, size := 8294400 },
    add_fb := Sys.ok (h + 100),
    map_dumb := Sys.ok (h * 8294400),
    mmap := Sys.ok (h * 16777216) }

/-- Kernel answers under which every step of `modeset_device_create` for the
`i`-th connector succeeds. -/
def ex_create_ok (i : Nat) : CreateOracle :=
  { blob := some (50 + i),
    objects := { connector_props := some ex_connector_props,
                 crtc_props := some ex_crtc_props,
                 plane_props := some ex_plane_props },
    fb0 := ex_fb_ok (2 * i + 1),
    fb1 := ex_fb_ok (2 * i + 2) }

/-- Example device: two connected connectors, two CRTCs (ids 10 and 11), two
primary planes (30 for CRTC index 0, 31 for CRTC index 1).  Connector 1 is
bound to encoder 5 which drives CRTC 10; connector 2 is unbound and its
encoder 6 may use either CRTC. -/
def ex_two_outputs : Drm :=
  { res := Sys.ok { crtcs := [10, 11], connectors := [1, 2] },
    connector_tbl :=
      [ { connector_id := 1, encoder_id := 5, connection := 1,
          modes := [{ hdisplay := 1920, vdisplay := 1080 }], encoders := [5] },
        { connector_id := 2, encoder_id := 0, connection := 1,
          modes := [{ hdisplay := 1920, vdisplay := 1080 }], encoders := [6] } ],
    encoder_tbl :=
      [ { encoder_id := 5, crtc_id := 10, possible_crtcs := 1 },
        { encoder_id := 6, crtc_id := 0, possible_crtcs := 3 } ],
    plane_res := some [30, 31],
    plane_tbl :=
      [ { plane_id := 30, possible_crtcs := 1 },
        { plane_id := 31, possible_crtcs := 2 } ],
    object_props :=
      [ { obj_id := 30, obj_type := DRM_MODE_OBJECT_PLANE, props := ex_plane_props },
        { obj_id := 31, obj_type := DRM_MODE_OBJECT_PLANE, props := ex_plane_props } ] }

/-- The resources of the example devices: CRTCs 10 and 11, connectors 1, 2. -/
def ex_res : drmModeRes := { crtcs := [10, 11], connectors := [1, 2] }

/-- An unbound connector whose encoder 6 may use either CRTC. -/
def ex_conn_unbound (id : Nat) : drmModeConnector :=
  { connector_id := id, encoder_id := 0, connection := 1,
    modes := [{ hdisplay := 1920, vdisplay := 1080 }], encoders := [6] }

/-- A context that holds CRTC `c`. -/
def ex_holder (c : Nat) : modeset_device :=
  { zeroed_device with crtc := { props := none, id := c } }

/-- Example device: two unbound connectors, two CRTCs (10, 11) and a single
primary plane 30 that is compatible with both CRTCs. -/
def ex_shared_plane : Drm :=
  { res := Sys.ok ex_res,
    connector_tbl := [ex_conn_unbound 1, ex_conn_unbound 2],
    encoder_tbl := [{ encoder_id := 6, crtc_id := 0, possible_crtcs := 3 }],
    plane_res := some [30],
    plane_tbl := [{ plane_id := 30, possible_crtcs := 3 }],
    object_props :=
      [ { obj_id := 30, obj_type := DRM_MODE_OBJECT_PLANE, props := ex_plane_props } ] }

/-- A connector bound to encoder 5. -/
def ex_conn_bound : drmModeConnector :=
  { connector_id := 1, encoder_id := 5, connection := 1,
    modes := [{ hdisplay := 1920, vdisplay := 1080 }], encoders := [5] }

/-- Example device: one connector bound to encoder 5, which drives CRTC 11,
the CRTC at index 1 of the resource list; primary plane 30 serves CRTC index 0
only and primary plane 31 serves CRTC index 1 only. -/
def ex_bound_second : Drm :=
  { res := Sys.ok { crtcs := [10, 11], connectors := [1] },
    connector_tbl := [ex_conn_bound],
    encoder_tbl := [{ encoder_id := 5, crtc_id := 11, possible_crtcs := 2 }],
    plane_res := some [30, 31],
    plane_tbl :=
      [ { plane_id := 30, possible_crtcs := 1 },
        { plane_id := 31, possible_crtcs := 2 } ],
    object_props :=
      [ { obj_id := 30, obj_type := DRM_MODE_OBJECT_PLANE, props := ex_plane_props },
        { obj_id := 31, obj_type := DRM_MODE_OBJECT_PLANE, props := ex_plane_props } ] }

/-- A fully provisioned context as discovery leaves it: connector 1, CRTC 10,
plane 30, mode blob 50, two 1920x1080 buffers with framebuffers 101 and 102. -/
def ex_device : modeset_device :=
  { front_buf := 0,
    bufs0 := { width := 1920, height := 1080, size := 8294400, stride := 7680,
               handle := 1, map := 16777216, pixels := Picture.blank, fb := 101 },
    bufs1 := { width := 1920, height := 1080, size := 8294400, stride := 7680,
               handle := 2, map := 33554432, pixels := Picture.blank, fb := 102 },
    connector := { props := some ex_connector_props, id := 1 },
    crtc := { props := some ex_crtc_props, id := 10 },
    plane := { props := some ex_plane_props, id := 30 },
    mode := { hdisplay := 1920, vdisplay := 1080 },
    mode_blob_id := 50, crtc_index := 0, pflip_pending := false,
    cleanup := false }

/-- The globals after discovery found `ex_device`. -/
def ex_world : World :=
  { device_list := [ex_device], cnt_call := 1, commits := [] }

/-- A run in which both startup commits are accepted, the completion event of
CRTC 10 arrives in `modeset_draw`, the next commit is accepted, and its
completion event arrives during `modeset_cleanup`. -/
def ex_run : RunOracle :=
  { modeset := { alloc := some 1, ret_uninit := 0, test_ret := 0, real_ret := 0 },
    first := HandleEvent.dispatched [{ crtc_id := 10, alloc := some 1, commit_ret := 0 }],
    shutdown := [HandleEvent.dispatched [{ crtc_id := 10, alloc := some 1, commit_ret := 0 }]] }

/-- The globals at shutdown with a commit of `ex_device` in flight. -/
def ex_world_in_flight : World :=
  { device_list := [{ ex_device with front_buf := 1, pflip_pending := true }],
    cnt_call := 2, commits := [] }

/-- Kernel answers of a buffer creation whose `mmap` fails with `ENOMEM`. -/
def ex_fb_mmap_fails (h : Nat) : FbOracle :=
  { create_dumb := Sys.ok { pitch := 7680, handle := h, size := 8294400 },
    add_fb := Sys.ok (h + 100),
    map_dumb := Sys.ok (h * 8294400),
    mmap := Sys.fail ⟨12, by decide⟩ }

/-- Kernel answers for one `modeset_device_create` in which everything
succeeds except that the three property queries of `modeset_setup_objects`
answer `c`, `r` and `p`. -/
def ex_create_objects (c r p : Option (List drmModePropertyRes)) : CreateOracle :=
  { blob := some 50,
    objects := { connector_props := c, crtc_props := r, plane_props := p },
    fb0 := ex_fb_ok 1,
    fb1 := ex_fb_ok 2 }

/-- A second fully provisioned context: connector 2, CRTC 11, plane 31, mode
blob 51, framebuffers 103 and 104. -/
def ex_device_b : modeset_device :=
  { front_buf := 0,
    bufs0 := { width := 1920, height := 1080, size := 8294400, stride := 7680,
               handle := 3, map := 50331648, pixels := Picture.blank, fb := 103 },
    bufs1 := { width := 1920, height := 1080, size := 8294400, stride := 7680,
               handle := 4, map := 67108864, pixels := Picture.blank, fb := 104 },
    connector := { props := some ex_connector_props, id := 2 },
    crtc := { props := some ex_crtc_props, id := 11 },
    plane := { props := some ex_plane_props, id := 31 },
    mode := { hdisplay := 1920, vdisplay := 1080 },
    mode_blob_id := 51, crtc_index := 1, pflip_pending := false,
    cleanup := false }

/-- The globals at shutdown with two outputs, each with a commit in flight;
the context of CRTC 10 is the head of `device_list`. -/
def ex_world_two_in_flight : World :=
  { device_list :=
      [ { ex_device with front_buf := 1, pflip_pending := true },
        { ex_device_b with front_buf := 1, pflip_pending := true } ],
    cnt_call := 2, commits := [] }

/-- Event-wait outcomes during shutdown: the first call dispatches the
completion of CRTC 11 and then that of CRTC 10, the second the completion of
CRTC 11. -/
def ex_shutdown_events : List HandleEvent :=
  [ HandleEvent.dispatched
      [{ crtc_id := 11, alloc := some 1, commit_ret := 0 }, { crtc_id := 10, alloc := some 1, commit_ret := 0 }],
    HandleEvent.dispatched [{ crtc_id := 11, alloc := some 1, commit_ret := 0 }] ]

/-- The context `ex_device` after its first steady-state commit: `bufs[1]` is
front, a flip is pending. -/
def ex_device_flipped : modeset_device :=
  { ex_device with front_buf := 1, pflip_pending := true }

/-- Properties of a plane that lacks the source-size properties SRC_W and
SRC_H and carries the other eight the commit builder sets. -/
def ex_plane_props_no_src : List drmModePropertyRes :=
  [ { prop_id := 8, name := "type", value := 1 },
    { prop_id := 17, name := "FB_ID", value := 0 },
    { prop_id := 20, name := "CRTC_ID", value := 0 },
    { prop_id := 9, name := "SRC_X", value := 0 },
    { prop_id := 10, name := "SRC_Y", value := 0 },
    { prop_id := 13, name := "CRTC_X", value := 0 },
    { prop_id := 14, name := "CRTC_Y", value := 0 },
    { prop_id := 15, name := "CRTC_W", value := 0 },
    { prop_id := 16, name := "CRTC_H", value := 0 } ]

/-- The context `ex_device` on a plane without SRC_W and SRC_H. -/
def ex_device_no_src : modeset_device :=
  { ex_device with plane := { props := some ex_plane_props_no_src, id := 30 } }

/-- A freshly allocated request whose first growth will succeed. -/
def ex_req : drmModeAtomicReqPtr := drmModeAtomicAlloc (some 1)

/-- Outcomes of five `modeset_draw_output` calls: accepted, commit rejected,
request allocation failed (so preparing fails), accepted, accepted. -/
def ex_draw_outcomes : List (Option Nat × Int) :=
  [(some 1, 0), (some 1, -16), (none, 0), (some 1, 0), (some 1, 0)]

/-! ## Discovery: what the later steps leave alone -/

theorem kept_fields_set_buf (dev : modeset_device) (i : Nat) (b : modeset_buf) :
    kept_fields (dev.set_buf i b) = kept_fields dev := by
  unfold modeset_device.set_buf kept_fields
  split <;> rfl

theorem kept_fields_setup_objects (o : ObjectsOracle) (dev : modeset_device) :
    kept_fields (modeset_setup_objects o dev).2.1 = kept_fields dev := by
  unfold modeset_setup_objects modeset_get_object_properties kept_fields
  cases o.connector_props <;> cases o.crtc_props <;> cases o.plane_props <;> simp

theorem kept_fields_setup_framebuffer (o0 o1 : FbOracle) (conn : drmModeConnector)
    (dev : modeset_device) :
    kept_fields (modeset_setup_framebuffer o0 o1 conn dev).2.1 = kept_fields dev := by
  unfold modeset_setup_framebuffer
  simp only []
  split
  · exact kept_fields_set_buf _ _ _
  · split <;> simp only [kept_fields_set_buf]

theorem find_plane_crtc (drm : Drm) (dev : modeset_device) :
    (modeset_find_plane drm dev).2.crtc.id = dev.crtc.id ∧
    (modeset_find_plane drm dev).2.crtc_index = dev.crtc_index ∧
    (modeset_find_plane drm dev).2.pflip_pending = dev.pflip_pending ∧
    (modeset_find_plane drm dev).2.cleanup = dev.cleanup ∧
    (modeset_find_plane drm dev).2.front_buf = dev.front_buf := by
  unfold modeset_find_plane
  split
  · simp
  · split <;> simp

/-- What a context returned by `modeset_device_create` looks like: its CRTC
and plane are those the two searches chose, in that order, starting from the
zeroed context. -/
theorem device_create_some (drm : Drm) (res : drmModeRes)
    (conn : drmModeConnector) (o : CreateOracle) (dl : List modeset_device)
    (dev : modeset_device)
    (h : (modeset_device_create drm res conn o dl).1 = some dev) :
    ∃ d0 : modeset_device,
      d0.crtc_index = 0 ∧
      (modeset_find_crtc drm res conn dl d0).1 = 0 ∧
      (modeset_find_plane drm (modeset_find_crtc drm res conn dl d0).2).1 = 0 ∧
      kept_fields dev = kept_fields
        (modeset_find_plane drm (modeset_find_crtc drm res conn dl d0).2).2 := by
  unfold modeset_device_create at h
  simp only [] at h
  split at h
  · simp at h
  · split at h
    · simp at h
    · split at h
      · simp at h
      · rename_i blob_id _
        split at h
        · simp at h
        · split at h
          · simp at h
          · split at h
            · simp at h
            · split at h
              · simp at h
              · rename_i hc hp _ _
                simp only [Option.some.injEq] at h
                refine ⟨_, ?_, not_not.mp hc, not_not.mp hp, ?_⟩
                · rfl
                · rw [← h, kept_fields_setup_framebuffer, kept_fields_setup_objects]

/-! ## CRTC search -/

theorem mask_has_eq_testBit (mask j : Nat) (hj : j < 32) :
    mask_has mask j = mask.testBit j := by
  unfold mask_has
  have h1 : (1 <<< j) % 2 ^ 32 = 2 ^ j := by
    rw [Nat.one_shiftLeft]
    exact Nat.mod_eq_of_lt (Nat.pow_lt_pow_right (by decide) hj)
  rw [h1, Nat.and_two_pow, Nat.testBit_mod_two_pow]
  have h2 : 0 < 2 ^ j := Nat.two_pow_pos j
  cases h : mask.testBit j <;> simp [hj, h]

theorem crtc_claimed_eq_false (dl : List modeset_device) (c : Nat) :
    crtc_claimed dl c = false ↔ ∀ d ∈ dl, d.crtc.id ≠ c := by
  unfold crtc_claimed
  simp [List.any_eq_false]

theorem find_crtc_bound_some (drm : Drm) (conn : drmModeConnector)
    (dl : List modeset_device) (c : Nat) :
    find_crtc_bound drm conn dl = some c ↔
      conn.encoder_id ≠ 0 ∧ ∃ enc, drmModeGetEncoder drm conn.encoder_id = some enc ∧
        enc.crtc_id = c ∧ c ≠ 0 ∧ ∀ d ∈ dl, d.crtc.id ≠ c := by
  unfold find_crtc_bound
  by_cases h0 : conn.encoder_id = 0
  · simp [h0]
  · cases he : drmModeGetEncoder drm conn.encoder_id with
    | none => simp [h0, he]
    | some enc =>
      simp only [h0, he, ne_eq, not_false_eq_true, if_true, true_and]
      by_cases hz : enc.crtc_id = 0
      · simp [hz]
        intro h; omega
      · by_cases hc : crtc_claimed dl enc.crtc_id = true
        · simp [hz, hc]
          intro h1 h2
          subst h1
          have := (crtc_claimed_eq_false dl enc.crtc_id).mpr
          simp [hc] at this
          obtain ⟨d, hd, hd2⟩ := this
          exact ⟨d, hd, hd2⟩
        · have hc2 : crtc_claimed dl enc.crtc_id = false := by simpa using hc
          have := (crtc_claimed_eq_false dl enc.crtc_id).mp hc2
          simp [hz, hc2, Nat.pos_of_ne_zero hz]
          intro h; subst h; exact ⟨hz, this⟩

theorem scan_crtcs_eq (dl : List modeset_device) (enc : drmModeEncoder)
    (cs : List Nat) (j : Nat) (hnz : ∀ c ∈ cs, c ≠ 0)
    (h32 : j + cs.length ≤ 32) :
    find_crtc_scan_crtcs dl enc cs j =
      ((encoder_candidates dl enc (cs.enumFrom j)).head?).map
        (fun jc => (jc.2, jc.1)) := by
  induction cs generalizing j with
  | nil => simp [find_crtc_scan_crtcs, encoder_candidates]
  | cons c cs ih =>
    have hj : j < 32 := by simp at h32; omega
    have hc : c ≠ 0 := hnz c (by simp)
    have ih2 := ih (j + 1) (fun x hx => hnz x (by simp [hx])) (by simp at h32; omega)
    unfold encoder_candidates at ih2 ⊢
    rw [find_crtc_scan_crtcs, mask_has_eq_testBit _ _ hj, List.enumFrom_cons]
    cases hb : enc.possible_crtcs.testBit j
    · simp [List.filter_cons, hb, ih2]
    · cases hcl : crtc_claimed dl c
      · have hall : ∀ x ∈ dl, ¬x.crtc.id = c := (crtc_claimed_eq_false dl c).mp hcl
        simp [List.filter_cons, hb, hcl, Nat.pos_of_ne_zero hc, if_pos hall]
      · have hex : ∃ d ∈ dl, d.crtc.id = c := by
          unfold crtc_claimed at hcl
          simpa using hcl
        simp [List.filter_cons, hb, hcl, ih2, hex]

theorem scan_encoders_eq (drm : Drm) (res : drmModeRes)
    (dl : List modeset_device) (es : List Nat)
    (hnz : ∀ c ∈ res.crtcs, c ≠ 0) (h32 : res.crtcs.length ≤ 32) :
    find_crtc_scan_encoders drm res dl es =
      ((((es.filterMap (drmModeGetEncoder drm)).flatMap
        (fun enc => encoder_candidates dl enc res.crtcs.enum)).head?).map
          (fun jc => (jc.2, jc.1))) := by
  induction es with
  | nil => simp [find_crtc_scan_encoders]
  | cons e es ih =>
    rw [find_crtc_scan_encoders]
    cases he : drmModeGetEncoder drm e with
    | none => simp [List.filterMap_cons, he, ih]
    | some enc =>
      have hs := scan_crtcs_eq dl enc res.crtcs 0 hnz (by omega)
      simp only [List.filterMap_cons, he, List.flatMap_cons, List.enum]
      rw [hs]
      cases hh : encoder_candidates dl enc (List.enumFrom 0 res.crtcs) with
      | nil => simp [ih, List.enum]
      | cons x xs => simp

theorem scan_crtcs_some (dl : List modeset_device) (enc : drmModeEncoder)
    (cs : List Nat) (j0 c j : Nat)
    (h : find_crtc_scan_crtcs dl enc cs j0 = some (c, j)) :
    crtc_claimed dl c = false ∧ c ≠ 0 ∧ j0 ≤ j ∧ cs[j - j0]? = some c ∧
      mask_has enc.possible_crtcs j = true := by
  induction cs generalizing j0 with
  | nil => simp [find_crtc_scan_crtcs] at h
  | cons x cs ih =>
    rw [find_crtc_scan_crtcs] at h
    have step : find_crtc_scan_crtcs dl enc cs (j0 + 1) = some (c, j) →
        crtc_claimed dl c = false ∧ c ≠ 0 ∧ j0 ≤ j ∧ (x :: cs)[j - j0]? = some c ∧
          mask_has enc.possible_crtcs j = true := by
      intro h2
      obtain ⟨h3, h4, h5, h6, h7⟩ := ih (j0 + 1) h2
      refine ⟨h3, h4, by omega, ?_, h7⟩
      have : j - j0 = (j - (j0 + 1)) + 1 := by omega
      rw [this, List.getElem?_cons_succ]
      exact h6
    cases hm : mask_has enc.possible_crtcs j0
    · simp only [hm, Bool.not_false, if_true] at h
      exact step h
    · cases hcl : crtc_claimed dl x
      · simp only [hm, hcl, Bool.not_true, Bool.false_eq_true, if_false] at h
        by_cases hx : x > 0
        · simp only [hx, if_true, Option.some.injEq, Prod.mk.injEq] at h
          obtain ⟨h1, h2⟩ := h
          subst h1; subst h2
          refine ⟨hcl, by omega, le_refl _, by simp, hm⟩
        · simp only [hx, if_false] at h
          exact step h
      · simp only [hm, hcl, Bool.not_true, Bool.false_eq_true, if_false, if_true,
          gt_iff_lt, lt_self_iff_false] at h
        exact step h

theorem scan_encoders_some (drm : Drm) (res : drmModeRes)
    (dl : List modeset_device) (es : List Nat) (c j : Nat)
    (h : find_crtc_scan_encoders drm res dl es = some (c, j)) :
    crtc_claimed dl c = false ∧ c ≠ 0 ∧ res.crtcs[j]? = some c := by
  induction es with
  | nil => simp [find_crtc_scan_encoders] at h
  | cons e es ih =>
    rw [find_crtc_scan_encoders] at h
    cases he : drmModeGetEncoder drm e with
    | none => simp only [he] at h; exact ih h
    | some enc =>
      simp only [he] at h
      cases hs : find_crtc_scan_crtcs dl enc res.crtcs 0 with
      | none => simp only [hs] at h; exact ih h
      | some r =>
        simp only [hs, Option.some.injEq] at h
        subst h
        obtain ⟨h1, h2, _, h4, _⟩ := scan_crtcs_some dl enc res.crtcs 0 c j hs
        exact ⟨h1, h2, by simpa using h4⟩

/-- A CRTC chosen by `modeset_find_crtc` is non-zero and held by no context
of `device_list`; the other fields of the context are left alone except
`crtc_index`. -/
theorem find_crtc_ok (drm : Drm) (res : drmModeRes) (conn : drmModeConnector)
    (dl : List modeset_device) (dev : modeset_device)
    (h : (modeset_find_crtc drm res conn dl dev).1 = 0) :
    (∀ d ∈ dl, d.crtc.id ≠ (modeset_find_crtc drm res conn dl dev).2.crtc.id) ∧
    (modeset_find_crtc drm res conn dl dev).2.crtc.id ≠ 0 ∧
    (modeset_find_crtc drm res conn dl dev).2.pflip_pending = dev.pflip_pending ∧
    (modeset_find_crtc drm res conn dl dev).2.cleanup = dev.cleanup ∧
    (modeset_find_crtc drm res conn dl dev).2.front_buf = dev.front_buf := by
  unfold modeset_find_crtc at h ⊢
  cases hb : find_crtc_bound drm conn dl with
  | some c =>
    obtain ⟨_, enc, _, _, h3, h4⟩ := (find_crtc_bound_some drm conn dl c).mp hb
    simp only []
    refine ⟨h4, h3, ?_, ?_, ?_⟩ <;> trivial
  | none =>
    simp only [hb] at h
    cases hs : find_crtc_scan_encoders drm res dl conn.encoders with
    | none => simp [hs, ENOENT] at h
    | some r =>
      obtain ⟨c, j⟩ := r
      obtain ⟨h1, h2, _⟩ := scan_encoders_some drm res dl conn.encoders c j hs
      simp only []
      refine ⟨(crtc_claimed_eq_false dl c).mp h1, h2, ?_, ?_, ?_⟩ <;> trivial

/-- The `crtc_index` after `modeset_find_crtc`: the bound-encoder path leaves
it alone, the encoder scan stores an index of `res->crtcs`. -/
theorem find_crtc_index (drm : Drm) (res : drmModeRes) (conn : drmModeConnector)
    (dl : List modeset_device) (dev : modeset_device) :
    (modeset_find_crtc drm res conn dl dev).2.crtc_index = dev.crtc_index ∨
    (modeset_find_crtc drm res conn dl dev).2.crtc_index < res.crtcs.length := by
  unfold modeset_find_crtc
  cases hb : find_crtc_bound drm conn dl with
  | some c => left; rfl
  | none =>
    cases hs : find_crtc_scan_encoders drm res dl conn.encoders with
    | none => left; rfl
    | some r =>
      obtain ⟨c, j⟩ := r
      obtain ⟨_, _, h3⟩ := scan_encoders_some drm res dl conn.encoders c j hs
      right
      have : j < res.crtcs.length := by
        by_contra hj
        rw [List.getElem?_eq_none (by omega)] at h3
        simp at h3
      exact this

theorem device_create_unclaimed (drm : Drm) (res : drmModeRes)
    (conn : drmModeConnector) (o : CreateOracle) (dl : List modeset_device)
    (dev : modeset_device)
    (h : (modeset_device_create drm res conn o dl).1 = some dev) :
    ∀ d ∈ dl, d.crtc.id ≠ dev.crtc.id := by
  obtain ⟨d0, _, hc, _, hcl⟩ := device_create_some drm res conn o dl dev h
  have h1 := (find_crtc_ok drm res conn dl d0 hc).1
  have h2 := (find_plane_crtc drm (modeset_find_crtc drm res conn dl d0).2).1
  have h3 : dev.crtc.id =
      (modeset_find_plane drm (modeset_find_crtc drm res conn dl d0).2).2.crtc.id :=
    congrArg (fun x => x.1) hcl
  intro d hd
  rw [h3, h2]
  exact h1 d hd

theorem prepare_loop_distinct (drm : Drm) (res : drmModeRes)
    (o : Nat → CreateOracle) (cs : List Nat) (i : Nat)
    (st : List modeset_device × List Op)
    (h : st.1.Pairwise (fun a b => a.crtc.id ≠ b.crtc.id)) :
    (prepare_loop drm res o cs i st).1.Pairwise
      (fun a b => a.crtc.id ≠ b.crtc.id) := by
  induction cs generalizing i st with
  | nil => simpa [prepare_loop] using h
  | cons c cs ih =>
    rw [prepare_loop]
    cases hg : drmModeGetConnector drm c with
    | none => exact ih _ _ h
    | some conn =>
      simp only []
      cases hd : (modeset_device_create drm res conn (o i) st.1).1 with
      | none => exact ih _ _ h
      | some dev =>
        apply ih
        have hu := device_create_unclaimed drm res conn (o i) st.1 dev hd
        exact List.Pairwise.cons (fun d hd2 => (hu d hd2).symm) h

/-- Claim C1: CRTC uniqueness: `modeset_prepare` keeps the CRTC ids of
`device_list` pairwise distinct, whatever the topology and the outcomes of the
kernel calls; starting from the empty list, any two entries of the resulting
`device_list` have different `crtc.id`. -/
theorem crtc_ids_distinct (drm : Drm) (o : Nat → CreateOracle)
    (device_list : List modeset_device)
    (h : device_list.Pairwise (fun a b => a.crtc.id ≠ b.crtc.id)) :
    (modeset_prepare drm o device_list).2.1.Pairwise
      (fun a b => a.crtc.id ≠ b.crtc.id) := by
  unfold modeset_prepare
  cases hr : drm.res with
  | fail e => simpa using h
  | ok res =>
    have := prepare_loop_distinct drm res o res.connectors 0 (device_list, []) h
    simp only []
    split <;> exact this

theorem crtc_ids_distinct_witness :
    (modeset_prepare ex_two_outputs ex_create_ok []).2.1.map (fun d => d.crtc.id)
      = [11, 10] ∧
    (modeset_prepare ex_two_outputs ex_create_ok []).2.1.Pairwise
      (fun a b => a.crtc.id ≠ b.crtc.id) :=
  ⟨by decide, crtc_ids_distinct ex_two_outputs ex_create_ok [] List.Pairwise.nil⟩

/-- Claim C4: CRTC search.  For a device whose CRTC ids are non-zero and that has
at most 32 CRTCs (the width of the mask), `modeset_find_crtc`
(1) returns the CRTC of the bound encoder when it is non-zero and unclaimed;
(2) otherwise returns the first candidate in encoder order, then CRTC-index
order, that the encoder's mask marks possible and no context holds (and
records its index in `crtc_index`);
(3) returns `-ENOENT` exactly when neither exists, and returns nothing else
than 0 or `-ENOENT`. -/
theorem find_crtc_spec (drm : Drm) (res : drmModeRes) (conn : drmModeConnector)
    (dl : List modeset_device) (dev : modeset_device)
    (hnz : ∀ c ∈ res.crtcs, c ≠ 0) (h32 : res.crtcs.length ≤ 32) :
    (∀ c, bound_available drm conn dl c →
      (modeset_find_crtc drm res conn dl dev).1 = 0 ∧
      (modeset_find_crtc drm res conn dl dev).2.crtc.id = c) ∧
    ((¬ ∃ c, bound_available drm conn dl c) →
      ∀ jc rest, crtc_candidates drm res conn dl = jc :: rest →
        (modeset_find_crtc drm res conn dl dev).1 = 0 ∧
        (modeset_find_crtc drm res conn dl dev).2.crtc.id = jc.2 ∧
        (modeset_find_crtc drm res conn dl dev).2.crtc_index = jc.1) ∧
    ((modeset_find_crtc drm res conn dl dev).1 = -ENOENT ↔
      (¬ ∃ c, bound_available drm conn dl c) ∧
        crtc_candidates drm res conn dl = []) ∧
    ((modeset_find_crtc drm res conn dl dev).1 = 0 ∨
      (modeset_find_crtc drm res conn dl dev).1 = -ENOENT) := by
  have hb : ∀ c, find_crtc_bound drm conn dl = some c ↔ bound_available drm conn dl c :=
    fun c => find_crtc_bound_some drm conn dl c
  have hs := scan_encoders_eq drm res dl conn.encoders hnz h32
  unfold modeset_find_crtc
  cases hbc : find_crtc_bound drm conn dl with
  | some c0 =>
    have hav := (hb c0).mp hbc
    refine ⟨?_, ?_, ?_, ?_⟩
    · intro c hc
      have := (hb c).mpr hc
      rw [hbc] at this
      simp only [Option.some.injEq] at this
      subst this
      simp
    · intro hno
      exact absurd ⟨c0, hav⟩ hno
    · simp only [ENOENT]
      constructor
      · intro h; simp at h
      · intro h; exact absurd ⟨c0, hav⟩ h.1
    · left; rfl
  | none =>
    have hno : ¬ ∃ c, bound_available drm conn dl c := by
      rintro ⟨c, hc⟩
      have := (hb c).mpr hc
      rw [hbc] at this
      simp at this
    unfold crtc_candidates
    cases hcand : (conn.encoders.filterMap (drmModeGetEncoder drm)).flatMap
        (fun enc => encoder_candidates dl enc res.crtcs.enum) with
    | nil =>
      rw [hcand] at hs
      simp only [List.head?_nil, Option.map_none'] at hs
      simp only [hs]
      refine ⟨?_, ?_, ?_, ?_⟩
      · intro c hc; exact absurd ⟨c, hc⟩ hno
      · intro _ jc rest h; simp at h
      · simp [hno]
      · right; trivial
    | cons x xs =>
      rw [hcand] at hs
      simp only [List.head?_cons, Option.map_some'] at hs
      simp only [hs]
      refine ⟨?_, ?_, ?_, ?_⟩
      · intro c hc; exact absurd ⟨c, hc⟩ hno
      · intro _ jc rest h
        simp only [List.cons.injEq] at h
        rw [← h.1]
        simp
      · simp [ENOENT]
      · left; trivial

theorem find_crtc_spec_witness :
    (∀ c ∈ ex_res.crtcs, c ≠ 0) ∧ ex_res.crtcs.length ≤ 32 ∧
    (¬ ∃ c, bound_available ex_two_outputs (ex_conn_unbound 2) [ex_holder 10] c) ∧
    crtc_candidates ex_two_outputs ex_res (ex_conn_unbound 2) [ex_holder 10]
      = [(1, 11)] ∧
    (modeset_find_crtc ex_two_outputs ex_res (ex_conn_unbound 2) [ex_holder 10]
      zeroed_device).1 = 0 ∧
    (modeset_find_crtc ex_two_outputs ex_res (ex_conn_unbound 2) [ex_holder 10]
      zeroed_device).2.crtc.id = 11 ∧
    (modeset_find_crtc ex_two_outputs ex_res (ex_conn_unbound 2) [ex_holder 10]
      zeroed_device).2.crtc_index = 1 :=
  have hno : ¬ ∃ c, bound_available ex_two_outputs (ex_conn_unbound 2)
      [ex_holder 10] c := fun ⟨_, h, _⟩ => h rfl
  ⟨by decide, by decide, hno, by decide,
    (find_crtc_spec ex_two_outputs ex_res (ex_conn_unbound 2) [ex_holder 10]
      zeroed_device (by decide) (by decide)).2.1 hno (1, 11) [] (by decide)⟩

/-! ## Plane search -/

theorem find_plane_loop_some (drm : Drm) (i : Nat) (ids : List Nat) (p : Nat)
    (h : find_plane_loop drm i ids = some p) :
    ∃ plane, drmModeGetPlane drm p = some plane ∧
      mask_has plane.possible_crtcs i = true ∧ plane_is_primary drm p = true := by
  induction ids with
  | nil => simp [find_plane_loop] at h
  | cons a rest ih =>
    rw [find_plane_loop] at h
    cases hg : drmModeGetPlane drm a with
    | none => simp only [hg] at h; exact ih h
    | some plane =>
      simp only [hg] at h
      by_cases hm : mask_has plane.possible_crtcs i = true
      · by_cases hp : get_property_value
            (drmModeObjectGetProperties drm a DRM_MODE_OBJECT_PLANE) "type"
            = DRM_PLANE_TYPE_PRIMARY
        · simp only [hm, hp, if_true, Option.some.injEq] at h
          subst h
          exact ⟨plane, hg, hm, by simp [plane_is_primary, hp]⟩
        · simp only [hm, hp, if_true, if_false] at h
          exact ih h
      · simp only [hm, if_false] at h
        exact ih h

theorem find_plane_ok (drm : Drm) (dev : modeset_device)
    (hi : dev.crtc_index < 32) (h : (modeset_find_plane drm dev).1 = 0) :
    plane_fits drm (modeset_find_plane drm dev).2 := by
  unfold modeset_find_plane at h ⊢
  cases hr : drm.plane_res with
  | none => simp [hr, ENOENT] at h
  | some planes =>
    simp only [hr] at h ⊢
    cases hl : find_plane_loop drm dev.crtc_index planes with
    | none => simp [hl, EINVAL] at h
    | some p =>
      obtain ⟨plane, h1, h2, h3⟩ :=
        find_plane_loop_some drm dev.crtc_index planes p hl
      rw [mask_has_eq_testBit _ _ hi] at h2
      exact ⟨hi, plane, h1, h2, h3⟩

theorem device_create_plane_fits (drm : Drm) (res : drmModeRes)
    (conn : drmModeConnector) (o : CreateOracle) (dl : List modeset_device)
    (dev : modeset_device) (h32 : res.crtcs.length ≤ 32)
    (h : (modeset_device_create drm res conn o dl).1 = some dev) :
    plane_fits drm dev := by
  obtain ⟨d0, hz, _, hp, hcl⟩ := device_create_some drm res conn o dl dev h
  have hi : (modeset_find_crtc drm res conn dl d0).2.crtc_index < 32 := by
    rcases find_crtc_index drm res conn dl d0 with h1 | h1
    · rw [h1, hz]; decide
    · omega
  have hf := find_plane_ok drm _ hi hp
  have h1 : dev.plane.id =
      (modeset_find_plane drm (modeset_find_crtc drm res conn dl d0).2).2.plane.id :=
    congrArg (fun x => x.2.1) hcl
  have h2 : dev.crtc_index =
      (modeset_find_plane drm (modeset_find_crtc drm res conn dl d0).2).2.crtc_index :=
    congrArg (fun x => x.2.2.1) hcl
  unfold plane_fits at hf ⊢
  rw [h1, h2]
  exact hf

theorem prepare_loop_plane_fits (drm : Drm) (res : drmModeRes)
    (o : Nat → CreateOracle) (cs : List Nat) (i : Nat)
    (st : List modeset_device × List Op) (h32 : res.crtcs.length ≤ 32)
    (h : ∀ d ∈ st.1, plane_fits drm d) :
    ∀ d ∈ (prepare_loop drm res o cs i st).1, plane_fits drm d := by
  induction cs generalizing i st with
  | nil => simpa [prepare_loop] using h
  | cons c cs ih =>
    rw [prepare_loop]
    cases hg : drmModeGetConnector drm c with
    | none => exact ih _ _ h
    | some conn =>
      simp only []
      cases hd : (modeset_device_create drm res conn (o i) st.1).1 with
      | none => exact ih _ _ h
      | some dev =>
        apply ih
        intro d hd2
        rcases List.mem_cons.mp hd2 with rfl | hd3
        · exact device_create_plane_fits drm res conn (o i) st.1 d h32 hd
        · exact h d hd3

/-- Claim C2 (counterexample): On a device whose single primary plane is
compatible with both CRTCs, `modeset_prepare` builds two contexts with
different CRTCs and the same plane id 30. -/
theorem plane_ids_shared :
    (modeset_prepare ex_shared_plane ex_create_ok []).2.1.map
      (fun d => (d.crtc.id, d.crtc_index, d.plane.id)) = [(11, 1, 30), (10, 0, 30)] ∧
    ¬ (modeset_prepare ex_shared_plane ex_create_ok []).2.1.Pairwise
      (fun a b => a.plane.id ≠ b.plane.id) := by
  decide

/-- Claim C2 (amended): On a device with at most 32 CRTCs none of whose
primary planes is compatible with more than one CRTC, any two entries of the
`device_list` built by `modeset_prepare` whose `crtc_index` differ have
different `plane.id`. -/
theorem plane_ids_distinct (drm : Drm) (o : Nat → CreateOracle)
    (hex : primary_planes_exclusive drm)
    (h32 : ∀ res, drm.res = Sys.ok res → res.crtcs.length ≤ 32) :
    ∀ a ∈ (modeset_prepare drm o []).2.1, ∀ b ∈ (modeset_prepare drm o []).2.1,
      a.crtc_index ≠ b.crtc_index → a.plane.id ≠ b.plane.id := by
  have key : ∀ a ∈ (modeset_prepare drm o []).2.1, plane_fits drm a := by
    unfold modeset_prepare
    cases hr : drm.res with
    | fail e => simp
    | ok res =>
      have := prepare_loop_plane_fits drm res o res.connectors 0 ([], [])
        (h32 res hr) (by simp)
      simp only []
      split <;> exact this
  intro a ha b hb hne heq
  obtain ⟨hla, pa, hga, hma, hpa⟩ := key a ha
  obtain ⟨hlb, pb, hgb, hmb, _⟩ := key b hb
  rw [← heq, hga] at hgb
  simp only [Option.some.injEq] at hgb
  subst hgb
  have hmem : pa ∈ drm.plane_tbl := List.mem_of_find?_eq_some hga
  have hid : pa.plane_id = a.plane.id := by
    have := List.find?_some hga
    simpa using this
  rw [← hid] at hpa
  exact hne (hex pa hmem hpa _ hla _ hlb hma hmb)

theorem plane_ids_distinct_witness :
    primary_planes_exclusive ex_two_outputs ∧
    (∀ res, ex_two_outputs.res = Sys.ok res → res.crtcs.length ≤ 32) ∧
    (modeset_prepare ex_two_outputs ex_create_ok []).2.1.map
      (fun d => (d.crtc_index, d.plane.id)) = [(1, 31), (0, 30)] ∧
    ∀ a ∈ (modeset_prepare ex_two_outputs ex_create_ok []).2.1,
      ∀ b ∈ (modeset_prepare ex_two_outputs ex_create_ok []).2.1,
      a.crtc_index ≠ b.crtc_index → a.plane.id ≠ b.plane.id :=
  have hex : primary_planes_exclusive ex_two_outputs := by
    unfold primary_planes_exclusive
    decide
  have h32 : ∀ res, ex_two_outputs.res = Sys.ok res → res.crtcs.length ≤ 32 := by
    intro res h
    simp only [ex_two_outputs, Sys.ok.injEq] at h
    rw [← h]
    decide
  ⟨hex, h32, by decide, plane_ids_distinct ex_two_outputs ex_create_ok hex h32⟩

/-- On the encoder-scan side the plane search does what the spec says: for a
`crtc_index` below 32, `modeset_find_plane` succeeds exactly when some plane
allows that index and is primary, and then takes the first such plane. -/
theorem find_plane_eq_first (drm : Drm) (dev : modeset_device)
    (planes : List Nat) (hres : drm.plane_res = some planes)
    (hi : dev.crtc_index < 32) :
    (∀ p, first_primary_plane drm dev.crtc_index = some p →
      modeset_find_plane drm dev =
        (0, { dev with plane := { dev.plane with id := p } })) ∧
    (first_primary_plane drm dev.crtc_index = none →
      modeset_find_plane drm dev = (-EINVAL, dev)) := by
  have key : ∀ ids : List Nat, find_plane_loop drm dev.crtc_index ids =
      ids.find? (fun plane_id =>
        match drmModeGetPlane drm plane_id with
        | none => false
        | some plane => plane.possible_crtcs.testBit dev.crtc_index &&
            plane_is_primary drm plane_id) := by
    intro ids
    induction ids with
    | nil => simp [find_plane_loop]
    | cons a rest ih =>
      rw [find_plane_loop, List.find?_cons]
      cases hg : drmModeGetPlane drm a with
      | none => simpa using ih
      | some plane =>
        simp only [mask_has_eq_testBit _ _ hi]
        cases hb : plane.possible_crtcs.testBit dev.crtc_index
        · simpa using ih
        · by_cases hp : get_property_value
              (drmModeObjectGetProperties drm a DRM_MODE_OBJECT_PLANE) "type"
              = DRM_PLANE_TYPE_PRIMARY
          · simp [plane_is_primary, hp]
          · simp [plane_is_primary, hp, ih]
  unfold first_primary_plane modeset_find_plane
  simp only [hres, Option.getD_some, key]
  constructor
  · intro p hp
    simp [hp]
  · intro hn
    simp [hn]

/-- Claim C3 (failing input): The connector is bound to an encoder that drives
CRTC 11, which sits at index 1 of the resource list.  `modeset_find_crtc`
takes it through the bound-encoder path and leaves `crtc_index` at 0, so
`modeset_find_plane` tests bit 0 and selects plane 30, which does not allow
CRTC index 1; the first primary plane that allows index 1 is plane 31. -/
theorem find_plane_bound_encoder_index :
    (modeset_device_create ex_bound_second ex_res ex_conn_bound (ex_create_ok 0)
      []).1.map (fun d => (d.crtc.id, d.crtc_index, d.plane.id))
      = some (11, 0, 30) ∧
    ex_res.crtcs.indexOf 11 = 1 ∧
    first_primary_plane ex_bound_second 1 = some 31 ∧
    (drmModeGetPlane ex_bound_second 30).map
      (fun p => p.possible_crtcs.testBit 1) = some false := by
  decide

/-! ## Commit builder -/

/-- A call of `drmModeAtomicAddProperty` that does not return a negative value
has appended its item. -/
theorem add_property_items (req : drmModeAtomicReqPtr) (o p v : Nat)
    (h : 0 ≤ (drmModeAtomicAddProperty req o p v).1) :
    req_items (drmModeAtomicAddProperty req o p v).2 =
      req_items req ++ [{ object_id := o, property_id := p, value := v }] := by
  unfold drmModeAtomicAddProperty at h ⊢
  cases req with
  | none => simp [EINVAL] at h
  | some r =>
    simp only [] at h ⊢
    split
    · rename_i hz
      rw [if_pos hz] at h
      simp [EINVAL] at h
    · rename_i hz
      rw [if_neg hz] at h
      split
      · rename_i hfull
        rw [if_pos hfull] at h
        split
        · rename_i hg
          rw [if_pos hg] at h
          simp [ENOMEM] at h
        · rfl
      · rfl

/-- With non-zero ids and room for one more item `drmModeAtomicAddProperty`
succeeds and the room shrinks by one. -/
theorem add_property_ok (req : drmModeAtomicReqPtr) (o p v n : Nat)
    (ho : o ≠ 0) (hp : p ≠ 0) (hroom : has_room req (n + 1)) :
    0 ≤ (drmModeAtomicAddProperty req o p v).1 ∧
    has_room (drmModeAtomicAddProperty req o p v).2 n := by
  obtain ⟨r, rfl, hr⟩ := hroom
  unfold drmModeAtomicAddProperty
  have hz : ¬ (o = 0 ∨ p = 0) := by
    rintro (h | h)
    · exact ho h
    · exact hp h
  simp only [hz, if_false]
  unfold capacity at hr
  by_cases hfull : r.size_items ≤ r.items.length
  · have hg : r.grants ≠ 0 := by
      intro h0
      rw [h0] at hr
      omega
    simp only [hfull, hg, if_true, if_false]
    refine ⟨by omega, _, rfl, ?_⟩
    simp only [capacity, List.length_append, List.length_singleton]
    have : (r.grants - 1) * item_size_inc + item_size_inc = r.grants * item_size_inc := by
      have : r.grants = (r.grants - 1) + 1 := by omega
      conv_rhs => rw [this, Nat.add_mul, Nat.one_mul]
    omega
  · simp only [hfull, if_false]
    refine ⟨by omega, _, rfl, ?_⟩
    simp only [capacity, List.length_append, List.length_singleton]
    omega

theorem set_property_items (req : drmModeAtomicReqPtr) (obj : drm_object)
    (name : String) (value : Nat)
    (h : 0 ≤ (set_drm_object_property req obj name value).1) :
    req_items (set_drm_object_property req obj name value).2 =
      req_items req ++ [assign obj name value] := by
  unfold set_drm_object_property at h ⊢
  split
  · rename_i hz
    rw [if_pos hz] at h
    simp [EINVAL] at h
  · rename_i hz
    rw [if_neg hz] at h
    exact add_property_items _ _ _ _ h

theorem set_property_ok (req : drmModeAtomicReqPtr) (obj : drm_object)
    (name : String) (value n : Nat) (hid : obj.id ≠ 0) (hc : carries obj name)
    (hroom : has_room req (n + 1)) :
    0 ≤ (set_drm_object_property req obj name value).1 ∧
    has_room (set_drm_object_property req obj name value).2 n := by
  unfold set_drm_object_property
  rw [if_neg hc]
  exact add_property_ok _ _ _ _ _ hid hc hroom

/-- A chain of `set_drm_object_property` calls that returns 0 has appended
every assignment, in order. -/
theorem set_properties_items (l : List (drm_object × String × Nat))
    (req : drmModeAtomicReqPtr) (h : (set_properties l req).1 = 0) :
    req_items (set_properties l req).2 =
      req_items req ++ l.map (fun t => assign t.1 t.2.1 t.2.2) := by
  induction l generalizing req with
  | nil => simp [set_properties]
  | cons t rest ih =>
    obtain ⟨obj, name, value⟩ := t
    rw [set_properties] at h ⊢
    by_cases hneg : (set_drm_object_property req obj name value).1 < 0
    · rw [if_pos hneg] at h
      simp at h
    · rw [if_neg hneg] at h ⊢
      rw [ih _ h, set_property_items req obj name value (by omega)]
      simp

/-- A chain of `set_drm_object_property` calls returns 0 when every object
has a non-zero id and carries its property and the request has room for all
of them. -/
theorem set_properties_ok (l : List (drm_object × String × Nat))
    (req : drmModeAtomicReqPtr)
    (hl : ∀ t ∈ l, t.1.id ≠ 0 ∧ carries t.1 t.2.1)
    (hroom : has_room req l.length) :
    (set_properties l req).1 = 0 := by
  induction l generalizing req with
  | nil => rfl
  | cons t rest ih =>
    obtain ⟨obj, name, value⟩ := t
    have ht := hl (obj, name, value) (List.mem_cons_self _ _)
    have hstep := set_property_ok req obj name value rest.length ht.1 ht.2 hroom
    rw [set_properties]
    rw [if_neg (by omega)]
    exact ih _ (fun t htm => hl t (List.mem_cons_of_mem _ htm)) hstep.2

theorem xor_one_of_front (f : Nat) (h : f = 0 ∨ f = 1) : f ^^^ 1 = 1 - f := by
  rcases h with rfl | rfl <;> rfl

/-- When `modeset_atomic_prepare_commit` returns 0 it has appended the
thirteen assignments of `commit_items`, in source order. -/
theorem prepare_commit_items (dev : modeset_device) (req : drmModeAtomicReqPtr)
    (h : (modeset_atomic_prepare_commit dev req).1 = 0) :
    req_items (modeset_atomic_prepare_commit dev req).2 =
      req_items req ++ commit_items dev := by
  unfold modeset_atomic_prepare_commit at h ⊢
  rw [set_properties_items _ _ h]
  rfl

/-- `modeset_atomic_prepare_commit` returns 0 when the three objects have
non-zero ids and carry the properties it sets, and the request is allocated
with room for thirteen items. -/
theorem prepare_commit_ok (dev : modeset_device) (req : drmModeAtomicReqPtr)
    (hci : dev.connector.id ≠ 0) (hri : dev.crtc.id ≠ 0) (hpi : dev.plane.id ≠ 0)
    (hconn : carries dev.connector "CRTC_ID")
    (hmode : carries dev.crtc "MODE_ID") (hact : carries dev.crtc "ACTIVE")
    (hplane : ∀ n ∈ plane_property_names, carries dev.plane n)
    (hroom : has_room req 13) :
    (modeset_atomic_prepare_commit dev req).1 = 0 := by
  unfold modeset_atomic_prepare_commit
  have hroom2 : has_room req (commit_assignments dev).length := hroom
  apply set_properties_ok _ _ _ hroom2
  have hp : ∀ n, n ∈ plane_property_names → carries dev.plane n := hplane
  intro t ht
  simp only [commit_assignments, List.mem_cons, List.mem_singleton,
    List.not_mem_nil, or_false] at ht
  rcases ht with h | h | h | h | h | h | h | h | h | h | h | h | h <;> subst h
  · exact ⟨hci, hconn⟩
  · exact ⟨hri, hmode⟩
  · exact ⟨hri, hact⟩
  · exact ⟨hpi, hp "FB_ID" (by decide)⟩
  · exact ⟨hpi, hp "CRTC_ID" (by decide)⟩
  · exact ⟨hpi, hp "SRC_X" (by decide)⟩
  · exact ⟨hpi, hp "SRC_Y" (by decide)⟩
  · exact ⟨hpi, hp "SRC_W" (by decide)⟩
  · exact ⟨hpi, hp "SRC_H" (by decide)⟩
  · exact ⟨hpi, hp "CRTC_X" (by decide)⟩
  · exact ⟨hpi, hp "CRTC_Y" (by decide)⟩
  · exact ⟨hpi, hp "CRTC_W" (by decide)⟩
  · exact ⟨hpi, hp "CRTC_H" (by decide)⟩

/-- A `NULL` request (failed `drmModeAtomicAlloc`) makes
`modeset_atomic_prepare_commit` return -1 for every context. -/
theorem prepare_commit_null (dev : modeset_device) :
    (modeset_atomic_prepare_commit dev none).1 = -1 := by
  have h : ∀ (obj : drm_object) (name : String) (v : Nat),
      (set_drm_object_property none obj name v).1 < 0 := by
    intro obj name v
    unfold set_drm_object_property drmModeAtomicAddProperty
    split <;> simp [EINVAL]
  unfold modeset_atomic_prepare_commit commit_assignments
  rw [set_properties, if_pos (h _ _ _)]

/-- The conditions of the batch theorem on the ids and on the request are
needed: with a zero CRTC id the second call is rejected after one item, and
with a request that cannot grow the first call is. -/
theorem prepare_commit_rejections :
    (modeset_atomic_prepare_commit
      { ex_device with crtc := { ex_device.crtc with id := 0 } } ex_req).1 = -1 ∧
    (req_items (modeset_atomic_prepare_commit
      { ex_device with crtc := { ex_device.crtc with id := 0 } } ex_req).2).length
      = 1 ∧
    (modeset_atomic_prepare_commit ex_device (drmModeAtomicAlloc (some 0))).1
      = -1 ∧
    req_items (modeset_atomic_prepare_commit ex_device
      (drmModeAtomicAlloc (some 0))).2 = [] := by
  decide

/-- Claim C5 (counterexample): A context with `front_buf = 0` whose connector,
CRTC and plane carry all eleven properties the claim names, on a plane
without SRC_W and SRC_H: `modeset_atomic_prepare_commit` returns -1 after
seven assignments.  And on a context that carries every property the call
succeeds with thirteen assignments, two of them (property ids 11 and 12,
SRC_W and SRC_H) outside the eleven of the claim. -/
theorem prepare_commit_sets_source_size :
    ex_device_no_src.front_buf = 0 ∧
    carries ex_device_no_src.connector "CRTC_ID" ∧
    carries ex_device_no_src.crtc "MODE_ID" ∧
    carries ex_device_no_src.crtc "ACTIVE" ∧
    (∀ n ∈ batch_claim_plane_names, carries ex_device_no_src.plane n) ∧
    (modeset_atomic_prepare_commit ex_device_no_src ex_req).1 = -1 ∧
    (req_items (modeset_atomic_prepare_commit ex_device_no_src ex_req).2).map
      (fun i => i.property_id) = [20, 23, 22, 17, 20, 9, 10] ∧
    (modeset_atomic_prepare_commit ex_device ex_req).1 = 0 ∧
    (req_items (modeset_atomic_prepare_commit ex_device ex_req).2).map
      (fun i => i.property_id)
      = [20, 23, 22, 17, 20, 9, 10, 11, 12, 13, 14, 15, 16] ∧
    find_prop_id ex_device.plane "SRC_W" = 11 ∧
    find_prop_id ex_device.plane "SRC_H" = 12 := by
  decide

/-- Claim C5 (amended): Commit batch content.  For a context with `front_buf`
0 or 1 and non-zero connector, CRTC and plane ids, whose connector, CRTC and
plane carry the thirteen properties the function sets (the eleven the claim
names and the plane's SRC_W and SRC_H), and for an allocated request that can
take thirteen more items, `modeset_atomic_prepare_commit` returns 0 and
appends exactly: connector CRTC_ID = crtc.id, crtc MODE_ID = mode_blob_id,
crtc ACTIVE = 1, plane FB_ID = fb of the back buffer, plane CRTC_ID =
crtc.id, SRC_X = SRC_Y = 0, SRC_W / SRC_H = the 32-bit shifts of the back
buffer's width / height, CRTC_X = CRTC_Y = 0, CRTC_W / CRTC_H = width /
height of the back buffer.  The back buffer `bufs[front_buf ^ 1]` is the slot
that is not front, and it is the slot `modeset_draw_framebuffer` paints:
painting changes the pixels of that slot and nothing else. -/
theorem prepare_commit_batch (dev : modeset_device) (req : drmModeAtomicReqPtr)
    (hf : dev.front_buf = 0 ∨ dev.front_buf = 1)
    (hci : dev.connector.id ≠ 0) (hri : dev.crtc.id ≠ 0) (hpi : dev.plane.id ≠ 0)
    (hconn : carries dev.connector "CRTC_ID")
    (hmode : carries dev.crtc "MODE_ID") (hact : carries dev.crtc "ACTIVE")
    (hplane : ∀ n ∈ plane_property_names, carries dev.plane n)
    (hroom : has_room req 13) :
    (modeset_atomic_prepare_commit dev req).1 = 0 ∧
    req_items (modeset_atomic_prepare_commit dev req).2 =
      req_items req ++
        [ assign dev.connector "CRTC_ID" dev.crtc.id,
          assign dev.crtc "MODE_ID" dev.mode_blob_id,
          assign dev.crtc "ACTIVE" 1,
          assign dev.plane "FB_ID" (dev.bufs (1 - dev.front_buf)).fb,
          assign dev.plane "CRTC_ID" dev.crtc.id,
          assign dev.plane "SRC_X" 0,
          assign dev.plane "SRC_Y" 0,
          assign dev.plane "SRC_W"
            (((dev.bufs (1 - dev.front_buf)).width <<< 16) % 2 ^ 32),
          assign dev.plane "SRC_H"
            (((dev.bufs (1 - dev.front_buf)).height <<< 16) % 2 ^ 32),
          assign dev.plane "CRTC_X" 0,
          assign dev.plane "CRTC_Y" 0,
          assign dev.plane "CRTC_W" (dev.bufs (1 - dev.front_buf)).width,
          assign dev.plane "CRTC_H" (dev.bufs (1 - dev.front_buf)).height ] ∧
    dev.bufs (dev.front_buf ^^^ 1) = dev.bufs (1 - dev.front_buf) ∧
    1 - dev.front_buf ≠ dev.front_buf ∧
    ∀ cnt_call : Int,
      (modeset_draw_framebuffer cnt_call dev).2.bufs dev.front_buf
        = dev.bufs dev.front_buf ∧
      (modeset_draw_framebuffer cnt_call dev).2.bufs (1 - dev.front_buf)
        = { dev.bufs (1 - dev.front_buf) with
            pixels := if cnt_call ≤ 1 then Picture.wait_text
              else Picture.boot_image } ∧
      kept_fields (modeset_draw_framebuffer cnt_call dev).2 = kept_fields dev := by
  have hx := xor_one_of_front dev.front_buf hf
  have hok := prepare_commit_ok dev req hci hri hpi hconn hmode hact hplane hroom
  refine ⟨hok, ?_, by rw [hx], by omega, ?_⟩
  · rw [prepare_commit_items dev req hok]
    simp only [commit_items, hx]
  · intro cnt_call
    unfold modeset_draw_framebuffer
    simp only [hx]
    rcases hf with h0 | h1
    · rw [h0]
      by_cases hc : cnt_call ≤ 1 <;>
        simp [hc, modeset_device.set_buf, modeset_device.bufs, kept_fields]
    · rw [h1]
      by_cases hc : cnt_call ≤ 1 <;>
        simp [hc, modeset_device.set_buf, modeset_device.bufs, kept_fields]

theorem prepare_commit_batch_witness :
    ex_device.connector.id ≠ 0 ∧ ex_device.crtc.id ≠ 0 ∧
    ex_device.plane.id ≠ 0 ∧
    carries ex_device.connector "CRTC_ID" ∧ carries ex_device.crtc "MODE_ID" ∧
    carries ex_device.crtc "ACTIVE" ∧
    (∀ n ∈ plane_property_names, carries ex_device.plane n) ∧
    has_room ex_req 13 ∧
    (modeset_atomic_prepare_commit ex_device ex_req).1 = 0 ∧
    req_items (modeset_atomic_prepare_commit ex_device ex_req).2 =
      [ { object_id := 1, property_id := 20, value := 10 },
        { object_id := 10, property_id := 23, value := 50 },
        { object_id := 10, property_id := 22, value := 1 },
        { object_id := 30, property_id := 17, value := 102 },
        { object_id := 30, property_id := 20, value := 10 },
        { object_id := 30, property_id := 9, value := 0 },
        { object_id := 30, property_id := 10, value := 0 },
        { object_id := 30, property_id := 11, value := 125829120 },
        { object_id := 30, property_id := 12, value := 70778880 },
        { object_id := 30, property_id := 13, value := 0 },
        { object_id := 30, property_id := 14, value := 0 },
        { object_id := 30, property_id := 15, value := 1920 },
        { object_id := 30, property_id := 16, value := 1080 } ] :=
  have hroom : has_room ex_req 13 := ⟨_, rfl, by decide⟩
  have h := prepare_commit_batch ex_device ex_req (Or.inl rfl) (by decide)
    (by decide) (by decide) (by decide) (by decide) (by decide) (by decide) hroom
  ⟨by decide, by decide, by decide, by decide, by decide, by decide, by decide,
    hroom, h.1, h.2.1.trans (by decide)⟩

/-! ## Flip scheduler -/

theorem kept_fields_draw_framebuffer (cnt_call : Int) (dev : modeset_device) :
    kept_fields (modeset_draw_framebuffer cnt_call dev).2 = kept_fields dev := by
  unfold modeset_draw_framebuffer
  split <;> exact kept_fields_set_buf _ _ _

theorem flags_of_kept_fields {a b : modeset_device} (h : kept_fields a = kept_fields b) :
    a.front_buf = b.front_buf ∧ a.pflip_pending = b.pflip_pending ∧
    a.cleanup = b.cleanup ∧ a.crtc.id = b.crtc.id := by
  unfold kept_fields at h
  simp only [Prod.mk.injEq] at h
  exact ⟨h.2.2.2.2.2, h.2.2.2.1, h.2.2.2.2.1, h.1⟩

/-- One call of `modeset_draw_output`: either no commit is issued
successfully and `front_buf`, `pflip_pending` keep their values, or one is,
`front_buf` is toggled and `pflip_pending` is set. -/
theorem draw_output_step (a : Option Nat) (r cnt : Int) (d : modeset_device) :
    (((modeset_draw_output a r cnt d).2.2 = none ∨ r < 0) ∧
      issued (modeset_draw_output a r cnt d).2.2.toList = 0 ∧
      (modeset_draw_output a r cnt d).2.1.front_buf = d.front_buf ∧
      (modeset_draw_output a r cnt d).2.1.pflip_pending = d.pflip_pending) ∨
    ((∃ call, (modeset_draw_output a r cnt d).2.2 = some call ∧ call.ret = r) ∧
      0 ≤ r ∧
      issued (modeset_draw_output a r cnt d).2.2.toList = 1 ∧
      (modeset_draw_output a r cnt d).2.1.front_buf = d.front_buf ^^^ 1 ∧
      (modeset_draw_output a r cnt d).2.1.pflip_pending = true) := by
  obtain ⟨hf, hp, _, _⟩ := flags_of_kept_fields (kept_fields_draw_framebuffer cnt d)
  unfold modeset_draw_output
  simp only []
  split
  · left
    exact ⟨Or.inl rfl, rfl, hf, hp⟩
  · split
    · rename_i hr
      left
      refine ⟨Or.inr hr, ?_, hf, hp⟩
      simp [issued, hr]
    · rename_i hr
      right
      have hr2 : 0 ≤ r := by omega
      refine ⟨⟨_, rfl, rfl⟩, hr2, ?_, ?_, rfl⟩
      · simp [issued, hr2]
      · simp only [hf]

theorem draw_output_call_ret (a : Option Nat) (r cnt : Int) (d : modeset_device)
    (call : CommitCall) (h : (modeset_draw_output a r cnt d).2.2 = some call) :
    call.ret = r := by
  unfold modeset_draw_output at h
  simp only [] at h
  by_cases hp : (modeset_atomic_prepare_commit (modeset_draw_framebuffer cnt d).2
      (drmModeAtomicAlloc a)).1 < 0
  · simp [hp] at h
  · by_cases hr : r < 0
    · simp only [hp, hr, if_false, if_true, Option.some.injEq] at h
      rw [← h]
    · simp only [hp, hr, if_false, Option.some.injEq] at h
      rw [← h]

theorem issued_append (a b : List CommitCall) :
    issued (a ++ b) = issued a + issued b := by
  simp [issued, List.filter_append]

theorem toggle_parity (k : Nat) : (k % 2) ^^^ 1 = (k + 1) % 2 := by
  rcases Nat.mod_two_eq_zero_or_one k with h | h
  · have : (k + 1) % 2 = 1 := by omega
    rw [h, this]; rfl
  · have : (k + 1) % 2 = 0 := by omega
    rw [h, this]; rfl

theorem draw_output_seq_parity (rets : List (Option Nat × Int))
    (st : Int × modeset_device × List CommitCall)
    (h : st.2.1.front_buf = issued st.2.2 % 2) :
    (draw_output_seq rets st).2.1.front_buf
      = issued (draw_output_seq rets st).2.2 % 2 := by
  induction rets generalizing st with
  | nil => simpa [draw_output_seq] using h
  | cons r rs ih =>
    rw [draw_output_seq]
    apply ih
    simp only [issued_append]
    rcases draw_output_step r.1 r.2 st.1 st.2.1 with ⟨_, h1, h2, _⟩ | ⟨_, _, h1, h2, _⟩
    · rw [h1, h2, h]; rfl
    · rw [h1, h2, h]; exact toggle_parity _

/-- Claim C6: Front-buffer toggle.  For an output that starts with `front_buf`
0 and any sequence of `modeset_draw_output` calls, after the sequence
`front_buf` equals the number of successfully issued commits modulo 2; and in
each single call on a context with `front_buf` 0 or 1, `front_buf` is toggled
(to the other of 0, 1) and `pflip_pending` is set when the commit was issued
successfully, and both keep their values when preparing or issuing failed. -/
theorem front_buf_toggle (dev : modeset_device) (cnt_call : Int)
    (rets : List (Option Nat × Int)) (h0 : dev.front_buf = 0) :
    (draw_output_seq rets (cnt_call, dev, [])).2.1.front_buf
      = issued (draw_output_seq rets (cnt_call, dev, [])).2.2 % 2 ∧
    ∀ (a : Option Nat) (r cnt : Int) (d : modeset_device),
      d.front_buf = 0 ∨ d.front_buf = 1 →
      ((∃ call, (modeset_draw_output a r cnt d).2.2 = some call ∧ 0 ≤ call.ret) →
        (modeset_draw_output a r cnt d).2.1.front_buf = 1 - d.front_buf ∧
        (modeset_draw_output a r cnt d).2.1.pflip_pending = true) ∧
      ((modeset_draw_output a r cnt d).2.2 = none ∨ r < 0 →
        (modeset_draw_output a r cnt d).2.1.front_buf = d.front_buf ∧
        (modeset_draw_output a r cnt d).2.1.pflip_pending = d.pflip_pending) := by
  refine ⟨draw_output_seq_parity rets _ (by simp [issued, h0]), ?_⟩
  intro a r cnt d hd
  rcases draw_output_step a r cnt d with ⟨h1, _, h2, h3⟩ | ⟨⟨call, h1, h1r⟩, hr, _, h2, h3⟩
  · refine ⟨?_, fun _ => ⟨h2, h3⟩⟩
    rintro ⟨call, hc, hret⟩
    rcases h1 with h1 | h1
    · rw [h1] at hc; simp at hc
    · exfalso
      have : call.ret = r := draw_output_call_ret a r cnt d call hc
      omega
  · refine ⟨fun _ => ⟨by rw [h2, xor_one_of_front _ hd], h3⟩, ?_⟩
    rintro (hn | hn)
    · rw [h1] at hn; simp at hn
    · omega

theorem front_buf_toggle_witness :
    ex_device.front_buf = 0 ∧
    (draw_output_seq ex_draw_outcomes (1, ex_device, [])).2.2.map
      (fun c => c.ret) = [0, -16, 0, 0] ∧
    issued (draw_output_seq ex_draw_outcomes (1, ex_device, [])).2.2 = 3 ∧
    (draw_output_seq ex_draw_outcomes (1, ex_device, [])).2.1.front_buf = 1 :=
  ⟨rfl, by decide, by decide,
    ((front_buf_toggle ex_device 1 ex_draw_outcomes rfl).1).trans (by decide)⟩

theorem draw_output_call_outputs (a : Option Nat) (r cnt : Int)
    (d : modeset_device)
    (call : CommitCall) (h : (modeset_draw_output a r cnt d).2.2 = some call) :
    call.outputs = [(modeset_draw_framebuffer cnt d).2] := by
  unfold modeset_draw_output at h
  simp only [] at h
  by_cases hp : (modeset_atomic_prepare_commit (modeset_draw_framebuffer cnt d).2
      (drmModeAtomicAlloc a)).1 < 0
  · simp [hp] at h
  · by_cases hr : r < 0
    · simp only [hp, hr, if_false, if_true, Option.some.injEq] at h
      rw [← h]
    · simp only [hp, hr, if_false, Option.some.injEq] at h
      rw [← h]

theorem idle_calls_append (a b : List CommitCall) (ha : idle_calls a)
    (hb : idle_calls b) : idle_calls (a ++ b) := by
  intro c hc
  rcases List.mem_append.mp hc with h | h
  · exact ha c h
  · exact hb c h

theorem draw_output_idle (a : Option Nat) (r cnt : Int) (dev : modeset_device)
    (hp : dev.pflip_pending = false) :
    idle_calls (modeset_draw_output a r cnt dev).2.2.toList := by
  intro c hmem d hd
  have hsome : (modeset_draw_output a r cnt dev).2.2 = some c :=
    Option.mem_def.mp (Option.mem_toList.mp hmem)
  rw [draw_output_call_outputs _ _ _ _ _ hsome] at hd
  simp only [List.mem_singleton] at hd
  rw [hd, (flags_of_kept_fields (kept_fields_draw_framebuffer cnt dev)).2.1]
  exact hp

theorem page_flip_event_idle (a : Option Nat) (r : Int) (crtc_id : Nat)
    (w : World)
    (h : idle_calls w.commits) :
    idle_calls (modeset_page_flip_event a r crtc_id w).commits := by
  unfold modeset_page_flip_event
  cases hf : find_device crtc_id w.device_list with
  | none => exact h
  | some t =>
    obtain ⟨pre, dev, post⟩ := t
    simp only []
    split
    · exact idle_calls_append _ _ h (draw_output_idle _ _ _ _ rfl)
    · exact h

theorem handle_event_idle (h : HandleEvent) (w : World)
    (hw : idle_calls w.commits) : idle_calls (drmHandleEvent h w).2.commits := by
  unfold drmHandleEvent
  cases h with
  | error => exact hw
  | dispatched events =>
    simp only []
    induction events generalizing w with
    | nil => exact hw
    | cons e es ih =>
      rw [List.foldl_cons]
      exact ih _ (page_flip_event_idle _ _ _ _ hw)

theorem perform_modeset_draw_idle (dl : List modeset_device) (cnt : Int)
    (h : ∀ d ∈ dl, d.pflip_pending = false) :
    ∀ d ∈ (perform_modeset_draw dl cnt).2, d.pflip_pending = false := by
  induction dl generalizing cnt with
  | nil => simp [perform_modeset_draw]
  | cons a rest ih =>
    rw [perform_modeset_draw]
    intro d hd
    simp only [List.mem_cons] at hd
    rcases hd with rfl | hd
    · rw [(flags_of_kept_fields (kept_fields_draw_framebuffer cnt a)).2.1]
      exact h a (by simp)
    · exact ih _ (fun x hx => h x (by simp [hx])) d hd

theorem perform_modeset_idle (o : ModesetOracle) (w : World)
    (hinit : ∀ d ∈ w.device_list, d.pflip_pending = false)
    (hw : idle_calls w.commits) :
    idle_calls (modeset_perform_modeset o w).2.commits := by
  unfold modeset_perform_modeset
  simp only []
  split
  · exact hw
  · split
    · apply idle_calls_append _ _ hw
      intro c hc d hd
      simp only [List.mem_singleton] at hc
      subst hc
      exact hinit d hd
    · apply idle_calls_append _ _ hw
      intro c hc d hd
      simp only [List.mem_cons, List.mem_singleton, List.not_mem_nil, or_false] at hc
      rcases hc with rfl | rfl
      · exact hinit d hd
      · exact perform_modeset_draw_idle _ _ hinit d hd

theorem cleanup_wait_idle (hs : List HandleEvent) (w : World)
    (hw : idle_calls w.commits) : idle_calls (cleanup_wait hs w).1.commits := by
  induction hs generalizing w with
  | nil => exact hw
  | cons h hs ih =>
    rw [cleanup_wait]
    split
    · simp only []
      split
      · exact handle_event_idle h w hw
      · exact ih _ (handle_event_idle h w hw)
    · exact hw

theorem cleanup_loop_idle (n : Nat) (hs : List HandleEvent) (st : CleanupResult)
    (hw : idle_calls st.world.commits) :
    idle_calls (cleanup_loop n hs st).world.commits := by
  induction n generalizing hs st with
  | zero => exact hw
  | succ n ih =>
    rw [cleanup_loop]
    split
    · exact hw
    · rename_i iter rest hdl
      have h1 := cleanup_wait_idle hs
        { st.world with device_list := { iter with cleanup := true } :: rest } hw
      simp only []
      split
      · exact h1
      · split
        · exact h1
        · exact ih _ _ h1

/-- Claim C7: At most one outstanding commit per output.  In a run of the
program from the state discovery leaves (no context has `pflip_pending` set
and no commit was made), through `modeset_perform_modeset`, the completion
events and `modeset_cleanup`, with any outcomes of the kernel calls, every
call of `drmModeAtomicCommit` is made for contexts whose `pflip_pending` is
false at the call: no commit is issued for an output with a pending flip. -/
theorem commit_only_when_idle (o : RunOracle) (w : World)
    (hinit : ∀ d ∈ w.device_list, d.pflip_pending = false)
    (hnone : w.commits = []) :
    ∀ c ∈ (run o w).world.commits, ∀ d ∈ c.outputs, d.pflip_pending = false := by
  have h0 : idle_calls w.commits := by
    rw [hnone]
    intro c hc
    simp at hc
  have h1 := perform_modeset_idle o.modeset w hinit h0
  have h2 := handle_event_idle o.first _ h1
  exact cleanup_loop_idle _ _ _ h2

theorem commit_only_when_idle_witness :
    (∀ d ∈ ex_world.device_list, d.pflip_pending = false) ∧
    (run ex_run ex_world).world.commits.map (fun c => (c.flags, c.ret))
      = [(0x500, 0), (0x401, 0), (0x201, 0)] ∧
    (run ex_run ex_world).destroyed.length = 1 ∧
    ∀ c ∈ (run ex_run ex_world).world.commits, ∀ d ∈ c.outputs,
      d.pflip_pending = false :=
  ⟨by decide, by decide, by decide,
    commit_only_when_idle ex_run ex_world (by decide) rfl⟩

/-! ## Shutdown -/

theorem find_device_length (crtc_id : Nat) (dl : List modeset_device)
    (pre post : List modeset_device) (dev : modeset_device)
    (h : find_device crtc_id dl = some (pre, dev, post)) :
    pre.length + 1 + post.length = dl.length := by
  induction dl generalizing pre with
  | nil => simp [find_device] at h
  | cons a rest ih =>
    rw [find_device] at h
    split at h
    · simp only [Option.some.injEq, Prod.mk.injEq] at h
      obtain ⟨h1, _, h3⟩ := h
      subst h1; subst h3
      simp; omega
    · cases hr : find_device crtc_id rest with
      | none => simp [hr] at h
      | some t =>
        obtain ⟨p, x, q⟩ := t
        simp only [hr, Option.some.injEq, Prod.mk.injEq] at h
        obtain ⟨h1, h2, h3⟩ := h
        subst h1; subst h2; subst h3
        have := ih p hr
        simp; omega

theorem page_flip_event_length (a : Option Nat) (r : Int) (crtc_id : Nat)
    (w : World) :
    (modeset_page_flip_event a r crtc_id w).device_list.length
      = w.device_list.length := by
  unfold modeset_page_flip_event
  cases hf : find_device crtc_id w.device_list with
  | none => rfl
  | some t =>
    obtain ⟨pre, dev, post⟩ := t
    have := find_device_length crtc_id w.device_list pre post dev hf
    simp only []
    split <;> (simp; omega)

theorem handle_event_length (h : HandleEvent) (w : World) :
    (drmHandleEvent h w).2.device_list.length = w.device_list.length := by
  unfold drmHandleEvent
  cases h with
  | error => rfl
  | dispatched events =>
    simp only []
    induction events generalizing w with
    | nil => rfl
    | cons e es ih =>
      rw [List.foldl_cons, ih, page_flip_event_length]

theorem cleanup_wait_length (hs : List HandleEvent) (w : World) :
    (cleanup_wait hs w).1.device_list.length = w.device_list.length := by
  induction hs generalizing w with
  | nil => rfl
  | cons h hs ih =>
    rw [cleanup_wait]
    split
    · simp only []
      split
      · exact handle_event_length h w
      · rw [ih, handle_event_length]
    · rfl

/-- The wait loop of `modeset_cleanup`, when no `drmHandleEvent` call returns
an error and the loop ends, ends with the flag of the head context clear. -/
theorem cleanup_wait_drained (hs : List HandleEvent) (w : World)
    (hne : HandleEvent.error ∉ hs) (hb : (cleanup_wait hs w).2.2 = false) :
    head_pending (cleanup_wait hs w).1 = false ∧
    HandleEvent.error ∉ (cleanup_wait hs w).2.1 := by
  induction hs generalizing w with
  | nil =>
    rw [cleanup_wait] at hb ⊢
    exact ⟨hb, by simp⟩
  | cons h hs ih =>
    have hne2 : HandleEvent.error ∉ hs := fun hm => hne (List.mem_cons_of_mem _ hm)
    rw [cleanup_wait] at hb ⊢
    by_cases hp : head_pending w = true
    · simp only [hp, if_true] at hb ⊢
      cases h with
      | error => exact absurd (List.mem_cons_self _ _) hne
      | dispatched events =>
        have hz : (drmHandleEvent (HandleEvent.dispatched events) w).1 = 0 := rfl
        simp only [hz, ne_eq, not_true_eq_false, if_false] at hb ⊢
        exact ih _ hne2 hb
    · simp only [hp, if_false] at hb ⊢
      exact ⟨by simpa using hp, hne⟩

theorem cleanup_loop_drained (n : Nat) (hs : List HandleEvent)
    (st : CleanupResult) (hne : HandleEvent.error ∉ hs)
    (hst : ∀ d ∈ st.destroyed, d.pflip_pending = false) :
    ∀ d ∈ (cleanup_loop n hs st).destroyed, d.pflip_pending = false := by
  induction n generalizing hs st with
  | zero => exact hst
  | succ n ih =>
    rw [cleanup_loop]
    split
    · exact hst
    · rename_i iter rest hdl
      simp only []
      split
      · exact hst
      · rename_i hb
        have hd := cleanup_wait_drained hs
          { st.world with device_list := { iter with cleanup := true } :: rest }
          hne (by simpa using hb)
        split
        · exact hst
        · rename_i it next hdl2
          apply ih _ _ hd.2
          intro d hmem
          simp only [List.mem_append, List.mem_singleton] at hmem
          rcases hmem with hm | rfl
          · exact hst d hm
          · have := hd.1
            unfold head_pending at this
            rw [hdl2] at this
            exact this

/-- Claim C8 (counterexample): One output with a commit in flight; the first
`drmHandleEvent` call of `modeset_cleanup` returns an error: the wait loop is
left by its `break` and the context is handed to `modeset_device_destory`
with `pflip_pending` still true. -/
theorem cleanup_releases_pending_on_error :
    (modeset_cleanup [HandleEvent.error] ex_world_in_flight).destroyed.map
      (fun d => (d.crtc.id, d.pflip_pending)) = [(10, true)] ∧
    (modeset_cleanup [HandleEvent.error] ex_world_in_flight).blocked = false := by
  decide

/-- Claim C8 (amended): Shutdown drain.  When no `drmHandleEvent` call made by
`modeset_cleanup` returns an error, every context is handed to
`modeset_device_destory` with `pflip_pending` false, whatever events the calls
dispatch: an output whose flip was pending when `modeset_cleanup` started is
released only after its completion event has been dispatched. -/
theorem cleanup_drains (hs : List HandleEvent) (w : World)
    (hne : HandleEvent.error ∉ hs) :
    ∀ d ∈ (modeset_cleanup hs w).destroyed, d.pflip_pending = false := by
  unfold modeset_cleanup
  exact cleanup_loop_drained _ _ _ hne (by simp)

theorem cleanup_drains_witness :
    HandleEvent.error ∉
      [HandleEvent.dispatched [], HandleEvent.dispatched [{ crtc_id := 10, alloc := some 1, commit_ret := 0 }]] ∧
    (modeset_cleanup
      [HandleEvent.dispatched [], HandleEvent.dispatched [{ crtc_id := 10, alloc := some 1, commit_ret := 0 }]]
      ex_world_in_flight).destroyed.map (fun d => d.crtc.id) = [10] ∧
    ∀ d ∈ (modeset_cleanup
      [HandleEvent.dispatched [], HandleEvent.dispatched [{ crtc_id := 10, alloc := some 1, commit_ret := 0 }]]
      ex_world_in_flight).destroyed, d.pflip_pending = false :=
  ⟨by decide, by decide, cleanup_drains _ ex_world_in_flight (by decide)⟩

/-- The iteration bound of `cleanup_loop` is enough: unless it is stuck
waiting for an event, `modeset_cleanup` hands every context of `device_list`
to `modeset_device_destory` and leaves the list empty. -/
theorem cleanup_loop_completes (n : Nat) (hs : List HandleEvent)
    (st : CleanupResult) (hn : st.world.device_list.length ≤ n)
    (hb : (cleanup_loop n hs st).blocked = false) :
    (cleanup_loop n hs st).world.device_list = [] ∧
    (cleanup_loop n hs st).destroyed.length
      = st.destroyed.length + st.world.device_list.length := by
  induction n generalizing hs st with
  | zero =>
    rw [cleanup_loop]
    have : st.world.device_list = [] := by
      cases h : st.world.device_list with
      | nil => rfl
      | cons a b => rw [h] at hn; simp at hn
    simp [this]
  | succ n ih =>
    rw [cleanup_loop] at hb ⊢
    cases hdl : st.world.device_list with
    | nil => simp [hdl]
    | cons iter rest =>
      simp only [hdl] at hb ⊢
      have hlen := cleanup_wait_length hs
        { st.world with device_list := { iter with cleanup := true } :: rest }
      by_cases hbl : (cleanup_wait hs
          { st.world with device_list := { iter with cleanup := true } :: rest }).2.2 = true
      · simp [hbl] at hb
      · simp only [hbl, if_false] at hb ⊢
        cases hdl2 : (cleanup_wait hs
            { st.world with device_list := { iter with cleanup := true } :: rest }).1.device_list with
        | nil =>
          rw [hdl2] at hlen
          simp at hlen
        | cons it next =>
          simp only [hdl2] at hb ⊢
          rw [hdl2] at hlen
          have hlen2 : next.length + 1 = rest.length + 1 := hlen
          rw [hdl] at hn
          simp only [List.length_cons] at hn
          have := ih _ _ (by show next.length ≤ n; omega) hb
          exact ⟨this.1, this.2.trans (by
            show (st.destroyed ++ [it]).length + next.length
              = st.destroyed.length + (iter :: rest).length
            simp only [List.length_append, List.length_singleton, List.length_cons,
              List.length_nil]
            omega)⟩

/-- Unless it is stuck, `modeset_cleanup` destroys every context and empties
`device_list`. -/
theorem cleanup_completes (hs : List HandleEvent) (w : World)
    (hb : (modeset_cleanup hs w).blocked = false) :
    (modeset_cleanup hs w).world.device_list = [] ∧
    (modeset_cleanup hs w).destroyed.length = w.device_list.length := by
  unfold modeset_cleanup at hb ⊢
  have := cleanup_loop_completes w.device_list.length hs
    { world := w, destroyed := [], ops := [], blocked := false } (le_refl _) hb
  exact ⟨this.1, this.2.trans (by simp)⟩

/-! ## Buffers -/

theorem replay_append (a b : List Op) (live : List Res) :
    replay (a ++ b) live = (replay a live).bind (replay b) := by
  induction a generalizing live with
  | nil => simp [replay]
  | cons x xs ih =>
    cases x with
    | alloc r => simp [replay, ih]
    | release r =>
      simp only [List.cons_append, replay]
      split
      · exact ih _
      · rfl

theorem neg_errno_ne_zero (e : Errno) : -(e.val : Int) ≠ 0 := by
  have := e.property
  omega

/-- One buffer creation: either it fails, with a non-zero code and a trace
that releases exactly what it created, or it returns 0, created the three
resources and stored their ids in the buffer. -/
theorem create_fb_cases (o : FbOracle) (buf : modeset_buf) :
    (fb_fails o ∧ (modeset_create_fb o buf).1 ≠ 0 ∧
      ∀ live, replay (modeset_create_fb o buf).2.2 live = some live) ∨
    (¬ fb_fails o ∧ (modeset_create_fb o buf).1 = 0 ∧
      (modeset_create_fb o buf).2.2 =
        [Op.alloc (Res.dumb (modeset_create_fb o buf).2.1.handle),
         Op.alloc (Res.fb (modeset_create_fb o buf).2.1.fb),
         Op.alloc (Res.mapping (modeset_create_fb o buf).2.1.map)]) := by
  unfold modeset_create_fb fb_fails
  cases h1 : o.create_dumb with
  | fail e =>
    left
    exact ⟨Or.inl ⟨e, rfl⟩, neg_errno_ne_zero e, fun live => rfl⟩
  | ok creq =>
    cases h2 : o.add_fb with
    | fail e =>
      left
      refine ⟨Or.inr (Or.inl ⟨e, rfl⟩), neg_errno_ne_zero e, fun live => ?_⟩
      simp [replay, create_fb_err_destroy]
    | ok fb =>
      cases h3 : o.map_dumb with
      | fail e =>
        left
        refine ⟨Or.inr (Or.inr (Or.inl ⟨e, rfl⟩)), neg_errno_ne_zero e, fun live => ?_⟩
        simp [replay, create_fb_err_fb, create_fb_err_destroy]
      | ok off =>
        cases h4 : o.mmap with
        | fail e =>
          left
          refine ⟨Or.inr (Or.inr (Or.inr ⟨e, rfl⟩)), neg_errno_ne_zero e, fun live => ?_⟩
          simp [replay, create_fb_err_fb, create_fb_err_destroy]
        | ok addr =>
          right
          refine ⟨?_, rfl, rfl⟩
          simp

theorem bufs_set_buf_one (dev : modeset_device) (b : modeset_buf) :
    (dev.set_buf 1 b).bufs 0 = dev.bufs 0 := by
  simp [modeset_device.set_buf, modeset_device.bufs]

theorem bufs_set_buf_zero (dev : modeset_device) (b : modeset_buf) :
    (dev.set_buf 0 b).bufs 0 = b := by
  simp [modeset_device.set_buf, modeset_device.bufs]

/-- Claim C9: Buffer rollback.  `modeset_setup_framebuffer` fails exactly when
the creation of the first slot fails at one of its steps or, the first slot
created, the creation of the second fails at one of its steps (dumb-buffer
create, framebuffer registration, map preparation, mmap); and when it fails,
replaying its resource trace on any set of live resources never releases a
resource that is not live and ends with that same set: every dumb buffer,
framebuffer and mapping created during the call has been released exactly
once and none remains. -/
theorem setup_framebuffer_rollback (o0 o1 : FbOracle) (conn : drmModeConnector)
    (dev : modeset_device) :
    ((modeset_setup_framebuffer o0 o1 conn dev).1 ≠ 0 ↔
      fb_fails o0 ∨ (¬ fb_fails o0 ∧ fb_fails o1)) ∧
    ((modeset_setup_framebuffer o0 o1 conn dev).1 ≠ 0 →
      ∀ live, replay (modeset_setup_framebuffer o0 o1 conn dev).2.2 live
        = some live) := by
  unfold modeset_setup_framebuffer
  simp only []
  rcases create_fb_cases o0 { dev.bufs 0 with
      width := (first_mode conn).hdisplay,
      height := (first_mode conn).vdisplay } with ⟨hf0, hr0, hb0⟩ | ⟨hf0, hr0, hb0⟩
  · rw [if_pos hr0]
    exact ⟨⟨fun _ => Or.inl hf0, fun _ => hr0⟩, fun _ => hb0⟩
  · rw [if_neg (not_not.mpr hr0)]
    rcases create_fb_cases o1 { (dev.set_buf 0 (modeset_create_fb o0 { dev.bufs 0 with
        width := (first_mode conn).hdisplay,
        height := (first_mode conn).vdisplay }).2.1).bufs 1 with
        width := (first_mode conn).hdisplay,
        height := (first_mode conn).vdisplay } with ⟨hf1, hr1, hb1⟩ | ⟨hf1, hr1, hb1⟩
    · rw [if_pos hr1]
      refine ⟨⟨fun _ => Or.inr ⟨hf0, hf1⟩, fun _ => hr1⟩, fun _ live => ?_⟩
      show replay (_ ++ _ ++ modeset_destroy_fb _) live = some live
      rw [replay_append, replay_append, hb0]
      simp only [replay, Option.some_bind, hb1, bufs_set_buf_one, bufs_set_buf_zero,
        modeset_destroy_fb]
      simp
    · rw [if_neg (not_not.mpr hr1)]
      refine ⟨⟨fun h => absurd rfl h, ?_⟩, fun h => absurd rfl h⟩
      rintro (h | h)
      · exact absurd h hf0
      · exact absurd h.2 hf1

theorem setup_framebuffer_rollback_witness :
    ¬ fb_fails (ex_fb_ok 1) ∧ fb_fails (ex_fb_mmap_fails 2) ∧
    (modeset_setup_framebuffer (ex_fb_ok 1) (ex_fb_mmap_fails 2) ex_conn_bound
      zeroed_device).1 = -12 ∧
    (modeset_setup_framebuffer (ex_fb_ok 1) (ex_fb_mmap_fails 2) ex_conn_bound
      zeroed_device).2.2.length = 10 ∧
    replay (modeset_setup_framebuffer (ex_fb_ok 1) (ex_fb_mmap_fails 2)
      ex_conn_bound zeroed_device).2.2 [Res.blob 50] = some [Res.blob 50] :=
  have hok : ¬ fb_fails (ex_fb_ok 1) := by
    simp [fb_fails, ex_fb_ok]
  have hfail : fb_fails (ex_fb_mmap_fails 2) :=
    Or.inr (Or.inr (Or.inr ⟨⟨12, by decide⟩, rfl⟩))
  ⟨hok, hfail, by decide, by decide,
    (setup_framebuffer_rollback (ex_fb_ok 1) (ex_fb_mmap_fails 2) ex_conn_bound
      zeroed_device).2 (by decide) [Res.blob 50]⟩

/-! ## Startup -/

theorem perform_modeset_draw_flags (dl : List modeset_device) (cnt : Int) :
    (perform_modeset_draw dl cnt).2.map (fun d => (d.front_buf, d.pflip_pending))
      = dl.map (fun d => (d.front_buf, d.pflip_pending)) := by
  induction dl generalizing cnt with
  | nil => rfl
  | cons a rest ih =>
    rw [perform_modeset_draw]
    have h := flags_of_kept_fields (kept_fields_draw_framebuffer cnt a)
    simp only [List.map_cons, ih, h.1, h.2.1]

/-- Whatever the outcome, `modeset_perform_modeset` leaves `front_buf` and
`pflip_pending` of every context as they were. -/
theorem perform_modeset_flags (o : ModesetOracle) (w : World) :
    (modeset_perform_modeset o w).2.device_list.map
        (fun d => (d.front_buf, d.pflip_pending))
      = w.device_list.map (fun d => (d.front_buf, d.pflip_pending)) := by
  unfold modeset_perform_modeset
  simp only []
  split
  · rfl
  · split
    · rfl
    · exact perform_modeset_draw_flags _ _

/-- Claim C10 (failing input): One context, both the test-only and the real
commit accepted: `modeset_perform_modeset` returns 0, the real commit carries
the framebuffer of `bufs[1]` with the page-flip event flag, and afterwards the
context still has `front_buf = 0` and `pflip_pending = false`. -/
theorem perform_modeset_no_toggle :
    (modeset_perform_modeset { alloc := some 1, ret_uninit := 0, test_ret := 0, real_ret := 0 }
      ex_world).1 = 0 ∧
    (modeset_perform_modeset { alloc := some 1, ret_uninit := 0, test_ret := 0, real_ret := 0 }
      ex_world).2.commits.map (fun c => (c.flags, c.ret, (req_items c.req).map
        (fun i => (i.property_id, i.value)) |>.filter (fun p => p.1 == 17)))
      = [(0x500, 0, [(17, 102)]), (0x401, 0, [(17, 102)])] ∧
    (modeset_perform_modeset { alloc := some 1, ret_uninit := 0, test_ret := 0, real_ret := 0 }
      ex_world).2.device_list.map (fun d => (d.front_buf, d.pflip_pending))
      = [(0, false)] := by
  decide

/-! ## Property-load failure -/

/-- When `modeset_setup_objects` fails, running `modeset_destroy_objects` on
the context it leaves (the label `dev_obj` of `modeset_device_create`)
releases a property cache that is not live: the connector's cache was either
never loaded or already released by the error labels of
`modeset_setup_objects`. -/
theorem setup_objects_failure_unbalanced (o : ObjectsOracle)
    (dev : modeset_device) (live : List Res)
    (hfail : (modeset_setup_objects o dev).1 ≠ 0)
    (hfresh : Res.props dev.connector.id ∉ live) :
    replay ((modeset_setup_objects o dev).2.2
      ++ modeset_destroy_objects (modeset_setup_objects o dev).2.1) live = none := by
  unfold modeset_setup_objects modeset_get_object_properties at hfail ⊢
  cases hc : o.connector_props with
  | none =>
    simp [modeset_destroy_objects, modeset_drm_object_finish, replay, hfresh]
  | some cp =>
    cases hr : o.crtc_props with
    | none =>
      simp [modeset_destroy_objects, modeset_drm_object_finish, replay, hfresh]
    | some rp =>
      cases hp : o.plane_props with
      | none =>
        simp [modeset_destroy_objects, modeset_drm_object_finish, replay, hfresh]
      | some pp =>
        simp [hc, hr, hp] at hfail

/-- Claim C12 (failing inputs): A connected connector with a mode, a free
CRTC 10 and a primary plane 30; the connector, the CRTC or the plane property
query is rejected.  In each case `modeset_device_create` goes to `dev_obj` and
applies `modeset_drm_object_finish` to all three objects: to the connector
with no cache loaded (first case), or to caches that the error labels of
`modeset_setup_objects` already released and to objects never loaded (second
and third case).  Replaying the trace hits a release of a cache that is not
live. -/
theorem device_create_objects_failure_teardown :
    modeset_device_create ex_two_outputs ex_res ex_conn_bound
        (ex_create_objects none (some ex_crtc_props) (some ex_plane_props)) []
      = (none,
        [Op.alloc (Res.blob 50),
         Op.release (Res.props 1), Op.release (Res.props 10),
         Op.release (Res.props 30),
         Op.release (Res.blob 50)]) ∧
    modeset_device_create ex_two_outputs ex_res ex_conn_bound
        (ex_create_objects (some ex_connector_props) none (some ex_plane_props)) []
      = (none,
        [Op.alloc (Res.blob 50),
         Op.alloc (Res.props 1), Op.release (Res.props 1),
         Op.release (Res.props 1), Op.release (Res.props 10),
         Op.release (Res.props 30),
         Op.release (Res.blob 50)]) ∧
    modeset_device_create ex_two_outputs ex_res ex_conn_bound
        (ex_create_objects (some ex_connector_props) (some ex_crtc_props) none) []
      = (none,
        [Op.alloc (Res.blob 50),
         Op.alloc (Res.props 1), Op.alloc (Res.props 10),
         Op.release (Res.props 10), Op.release (Res.props 1),
         Op.release (Res.props 1), Op.release (Res.props 10),
         Op.release (Res.props 30),
         Op.release (Res.blob 50)]) ∧
    replay (modeset_device_create ex_two_outputs ex_res ex_conn_bound
        (ex_create_objects none (some ex_crtc_props) (some ex_plane_props)) []).2 []
      = none ∧
    replay (modeset_device_create ex_two_outputs ex_res ex_conn_bound
        (ex_create_objects (some ex_connector_props) none (some ex_plane_props)) []).2 []
      = none ∧
    replay (modeset_device_create ex_two_outputs ex_res ex_conn_bound
        (ex_create_objects (some ex_connector_props) (some ex_crtc_props) none) []).2 []
      = none := by
  decide

/-! ## Cooperative shutdown -/

theorem find_device_eq (crtc_id : Nat) (dl : List modeset_device)
    (pre post : List modeset_device) (dev : modeset_device)
    (h : find_device crtc_id dl = some (pre, dev, post)) :
    dl = pre ++ dev :: post := by
  induction dl generalizing pre with
  | nil => simp [find_device] at h
  | cons a rest ih =>
    rw [find_device] at h
    split at h
    · simp only [Option.some.injEq, Prod.mk.injEq] at h
      obtain ⟨h1, h2, h3⟩ := h
      subst h1; subst h2; subst h3
      rfl
    · cases hr : find_device crtc_id rest with
      | none => simp [hr] at h
      | some t =>
        obtain ⟨p, x, q⟩ := t
        simp only [hr, Option.some.injEq, Prod.mk.injEq] at h
        obtain ⟨h1, h2, h3⟩ := h
        subst h1; subst h2; subst h3
        rw [ih p hr]
        rfl

/-- A completion event that finds every context marked `cleanup` issues no
commit and leaves every context marked. -/
theorem page_flip_event_marked (a : Option Nat) (r : Int) (crtc_id : Nat)
    (w : World)
    (h : ∀ d ∈ w.device_list, d.cleanup = true) :
    (modeset_page_flip_event a r crtc_id w).commits = w.commits ∧
    ∀ d ∈ (modeset_page_flip_event a r crtc_id w).device_list, d.cleanup = true := by
  unfold modeset_page_flip_event
  cases hf : find_device crtc_id w.device_list with
  | none => exact ⟨rfl, h⟩
  | some t =>
    obtain ⟨pre, dev, post⟩ := t
    have heq := find_device_eq crtc_id w.device_list pre post dev hf
    have hdev : dev.cleanup = true := h dev (by rw [heq]; simp)
    simp only [hdev, Bool.not_true, Bool.false_eq_true, if_false]
    refine ⟨trivial, ?_⟩
    intro d hd
    simp only [List.mem_append, List.mem_cons] at hd
    rcases hd with hd | rfl | hd
    · exact h d (by rw [heq]; simp [hd])
    · rfl
    · exact h d (by rw [heq]; simp [hd])

theorem handle_event_marked (e : HandleEvent) (w : World)
    (h : ∀ d ∈ w.device_list, d.cleanup = true) :
    (drmHandleEvent e w).2.commits = w.commits ∧
    ∀ d ∈ (drmHandleEvent e w).2.device_list, d.cleanup = true := by
  unfold drmHandleEvent
  cases e with
  | error => exact ⟨rfl, h⟩
  | dispatched events =>
    simp only []
    induction events generalizing w with
    | nil => exact ⟨rfl, h⟩
    | cons ev evs ih =>
      rw [List.foldl_cons]
      have h1 := page_flip_event_marked ev.alloc ev.commit_ret ev.crtc_id w h
      have h2 := ih _ h1.2
      exact ⟨h2.1.trans h1.1, h2.2⟩

theorem cleanup_wait_marked (hs : List HandleEvent) (w : World)
    (h : ∀ d ∈ w.device_list, d.cleanup = true) :
    (cleanup_wait hs w).1.commits = w.commits ∧
    ∀ d ∈ (cleanup_wait hs w).1.device_list, d.cleanup = true := by
  induction hs generalizing w with
  | nil => exact ⟨rfl, h⟩
  | cons e hs ih =>
    rw [cleanup_wait]
    have h1 := handle_event_marked e w h
    split
    · simp only []
      split
      · exact h1
      · have h2 := ih _ h1.2
        exact ⟨h2.1.trans h1.1, h2.2⟩
    · exact ⟨rfl, h⟩

theorem cleanup_loop_marked (n : Nat) (hs : List HandleEvent)
    (st : CleanupResult)
    (h : ∀ d ∈ st.world.device_list.tail, d.cleanup = true) :
    (cleanup_loop n hs st).world.commits = st.world.commits := by
  induction n generalizing hs st with
  | zero => rfl
  | succ n ih =>
    rw [cleanup_loop]
    cases hdl : st.world.device_list with
    | nil => rfl
    | cons iter rest =>
      rw [hdl] at h
      have hall : ∀ d ∈ ({ st.world with
          device_list := { iter with cleanup := true } :: rest } : World).device_list,
          d.cleanup = true := by
        intro d hd
        rcases List.mem_cons.mp hd with rfl | hd
        · rfl
        · exact h d hd
      have hw := cleanup_wait_marked hs _ hall
      simp only []
      split
      · exact hw.1
      · split
        · exact hw.1
        · rename_i it next hdl2
          have hnext : ∀ d ∈ next.tail, d.cleanup = true := by
            intro d hd
            apply hw.2
            rw [hdl2]
            exact List.mem_cons_of_mem _ (List.mem_of_mem_tail hd)
          exact (ih _ _ hnext).trans hw.1

/-- Claim C11 (counterexample): Two outputs, each with a commit in flight.
While `modeset_cleanup` waits for the head (CRTC 10), the completion event of
CRTC 11 is dispatched; that context is not marked `cleanup` yet, so
`modeset_page_flip_event` calls `modeset_draw_output` and a new commit
(page-flip event, non-blocking) is issued for CRTC 11 during shutdown. -/
theorem cleanup_issues_commit_for_later_output :
    ex_world_two_in_flight.commits = [] ∧
    (modeset_cleanup ex_shutdown_events ex_world_two_in_flight).world.commits.map
      (fun c => (c.flags, c.ret, c.outputs.map (fun d => (d.crtc.id, d.cleanup))))
      = [(0x201, 0, [(11, false)])] ∧
    (modeset_cleanup ex_shutdown_events ex_world_two_in_flight).destroyed.map
      (fun d => d.crtc.id) = [10, 11] := by
  decide

/-- Claim C11 (amended): Cooperative shutdown for a single output.  When
`device_list` holds one context (more generally, when every context after the
head is already marked `cleanup`), `modeset_cleanup` issues no commit,
whatever completion events are delivered while it runs: the head is marked
`cleanup` before the first event is dispatched, so `modeset_page_flip_event`
does not call `modeset_draw_output`. -/
theorem cleanup_issues_no_commit (hs : List HandleEvent) (w : World)
    (h : ∀ d ∈ w.device_list.tail, d.cleanup = true) :
    (modeset_cleanup hs w).world.commits = w.commits := by
  unfold modeset_cleanup
  exact cleanup_loop_marked _ _ _ h

theorem cleanup_issues_no_commit_witness :
    (∀ d ∈ ex_world_in_flight.device_list.tail, d.cleanup = true) ∧
    (modeset_cleanup
      [HandleEvent.dispatched [{ crtc_id := 10, alloc := some 1, commit_ret := 0 }]]
      ex_world_in_flight).destroyed.map (fun d => (d.crtc.id, d.pflip_pending))
      = [(10, false)] ∧
    (modeset_cleanup
      [HandleEvent.dispatched [{ crtc_id := 10, alloc := some 1, commit_ret := 0 }]]
      ex_world_in_flight).world.commits = ex_world_in_flight.commits :=
  ⟨by decide, by decide,
    cleanup_issues_no_commit _ ex_world_in_flight (by decide)⟩

/-! ## Source size in 16.16 fixed point -/

theorem create_fb_dims (o : FbOracle) (buf : modeset_buf) :
    (modeset_create_fb o buf).2.1.width = buf.width ∧
    (modeset_create_fb o buf).2.1.height = buf.height := by
  unfold modeset_create_fb
  cases o.create_dumb with
  | fail e => exact ⟨rfl, rfl⟩
  | ok creq =>
    cases o.add_fb with
    | fail e => exact ⟨rfl, rfl⟩
    | ok fb =>
      cases o.map_dumb with
      | fail e => exact ⟨rfl, rfl⟩
      | ok off =>
        cases o.mmap with
        | fail e => exact ⟨rfl, rfl⟩
        | ok addr => exact ⟨rfl, rfl⟩

theorem buf_dims_set_buf_one (dev : modeset_device) (b : modeset_buf) :
    buf_dims (dev.set_buf 1 b) =
      ((dev.bufs0.width, dev.bufs0.height), (b.width, b.height)) := by
  simp [buf_dims, modeset_device.set_buf]

theorem bufs0_set_buf_zero (dev : modeset_device) (b : modeset_buf) :
    (dev.set_buf 0 b).bufs0 = b := by
  simp [modeset_device.set_buf]

/-- After a successful `modeset_setup_framebuffer` both slots have the size of
the connector's first mode. -/
theorem setup_framebuffer_dims (o0 o1 : FbOracle) (conn : drmModeConnector)
    (dev : modeset_device)
    (h : (modeset_setup_framebuffer o0 o1 conn dev).1 = 0) :
    buf_dims (modeset_setup_framebuffer o0 o1 conn dev).2.1 =
      (((first_mode conn).hdisplay, (first_mode conn).vdisplay),
       ((first_mode conn).hdisplay, (first_mode conn).vdisplay)) := by
  unfold modeset_setup_framebuffer at h ⊢
  simp only [] at h ⊢
  split at h
  · rename_i h0
    exact absurd h h0
  · rename_i h0
    split at h
    · rename_i h1
      exact absurd h h1
    · rename_i h1
      rw [if_neg h0, if_neg h1]
      have d0 := create_fb_dims o0 { dev.bufs 0 with
        width := (first_mode conn).hdisplay,
        height := (first_mode conn).vdisplay }
      have d1 := create_fb_dims o1 { (dev.set_buf 0 (modeset_create_fb o0 { dev.bufs 0 with
        width := (first_mode conn).hdisplay,
        height := (first_mode conn).vdisplay }).2.1).bufs 1 with
        width := (first_mode conn).hdisplay,
        height := (first_mode conn).vdisplay }
      rw [buf_dims_set_buf_one, bufs0_set_buf_zero, d0.1, d0.2, d1.1, d1.2]

/-- The buffers of a context returned by `modeset_device_create` have the
size of the connector's first mode. -/
theorem device_create_dims (drm : Drm) (res : drmModeRes)
    (conn : drmModeConnector) (o : CreateOracle) (dl : List modeset_device)
    (dev : modeset_device)
    (h : (modeset_device_create drm res conn o dl).1 = some dev) :
    buf_dims dev =
      (((first_mode conn).hdisplay, (first_mode conn).vdisplay),
       ((first_mode conn).hdisplay, (first_mode conn).vdisplay)) := by
  unfold modeset_device_create at h
  simp only [] at h
  split at h
  · simp at h
  · split at h
    · simp at h
    · split at h
      · simp at h
      · split at h
        · simp at h
        · split at h
          · simp at h
          · split at h
            · simp at h
            · split at h
              · simp at h
              · rename_i hf
                simp only [Option.some.injEq] at h
                rw [← h]
                exact setup_framebuffer_dims _ _ _ _ (not_not.mp hf)

theorem buf_dims_set_pixels (dev : modeset_device) (i : Nat) (p : Picture) :
    buf_dims (dev.set_buf i { dev.bufs i with pixels := p }) = buf_dims dev := by
  unfold modeset_device.set_buf modeset_device.bufs buf_dims
  split <;> rfl

theorem buf_dims_draw_framebuffer (cnt : Int) (dev : modeset_device) :
    buf_dims (modeset_draw_framebuffer cnt dev).2 = buf_dims dev := by
  unfold modeset_draw_framebuffer
  simp only []
  split <;> exact buf_dims_set_pixels _ _ _

/-- The scheduler never changes the size of a buffer: `modeset_draw_output`
keeps the dimension fields of both slots. -/
theorem buf_dims_draw_output (a : Option Nat) (r cnt : Int)
    (dev : modeset_device) :
    buf_dims (modeset_draw_output a r cnt dev).2.1 = buf_dims dev := by
  have h := buf_dims_draw_framebuffer cnt dev
  unfold modeset_draw_output
  simp only []
  split
  · exact h
  · split
    · exact h
    · exact h

/-- A completion event keeps the buffer sizes of every context. -/
theorem buf_dims_page_flip_event (a : Option Nat) (r : Int) (crtc_id : Nat)
    (w : World) :
    (modeset_page_flip_event a r crtc_id w).device_list.map buf_dims
      = w.device_list.map buf_dims := by
  unfold modeset_page_flip_event
  cases hf : find_device crtc_id w.device_list with
  | none => rfl
  | some t =>
    obtain ⟨pre, dev, post⟩ := t
    have heq := find_device_eq crtc_id w.device_list pre post dev hf
    simp only []
    split
    · rw [heq]
      simp only [List.map_append, List.map_cons, buf_dims_draw_output]
      rfl
    · rw [heq]
      simp only [List.map_append, List.map_cons]
      rfl

theorem shift16_exact (n : Nat) (h : n < 2 ^ 16) :
    (n <<< 16) % 2 ^ 32 = n * 65536 := by
  rw [Nat.shiftLeft_eq]
  have : n * 2 ^ 16 < 2 ^ 32 := by omega
  rw [Nat.mod_eq_of_lt this]
  norm_num

/-- The 32-bit shift loses the high bits of a width that does not fit 16
bits: a buffer 65536 pixels wide, which no mode can describe, would get the
source width 0. -/
theorem shift16_wraps : ((65536 : Nat) <<< 16) % 2 ^ 32 = 0 := by
  decide

/-- Claim C13: 16.16 fixed-point source size.  Take a context built by
`modeset_device_create` from a connector whose first mode has `hdisplay` and
`vdisplay` in their 16-bit range, at any later time (`front_buf` 0 or 1, the
buffer sizes as created).  The values `modeset_atomic_prepare_commit` passes
for SRC_W and SRC_H, computed as 32-bit shifts of the back buffer's `width`
and `height`, equal the exact products `width * 65536` and `height * 65536`;
the products fit 32 bits, so nothing is lost before the widening to the
64-bit property value; whenever the call returns 0 they are the eighth and
ninth assignment appended to the request; and it returns 0 whenever the three
objects have non-zero ids and carry the properties it sets and the request
has room for the thirteen items. -/
theorem src_size_exact (drm : Drm) (res : drmModeRes) (conn : drmModeConnector)
    (o : CreateOracle) (dl : List modeset_device) (dev d : modeset_device)
    (hcreate : (modeset_device_create drm res conn o dl).1 = some dev)
    (hw : (first_mode conn).hdisplay < 2 ^ 16)
    (hh : (first_mode conn).vdisplay < 2 ^ 16)
    (hd : buf_dims d = buf_dims dev)
    (hf : d.front_buf = 0 ∨ d.front_buf = 1) :
    (commit_assignments d)[7]? =
      some (d.plane, "SRC_W", (d.bufs (d.front_buf ^^^ 1)).width * 65536) ∧
    (commit_assignments d)[8]? =
      some (d.plane, "SRC_H", (d.bufs (d.front_buf ^^^ 1)).height * 65536) ∧
    (d.bufs (d.front_buf ^^^ 1)).width = (first_mode conn).hdisplay ∧
    (d.bufs (d.front_buf ^^^ 1)).height = (first_mode conn).vdisplay ∧
    (d.bufs (d.front_buf ^^^ 1)).width * 65536 < 2 ^ 32 ∧
    (d.bufs (d.front_buf ^^^ 1)).height * 65536 < 2 ^ 32 ∧
    (∀ req : drmModeAtomicReqPtr, (modeset_atomic_prepare_commit d req).1 = 0 →
      (req_items (modeset_atomic_prepare_commit d req).2)[(req_items req).length + 7]? =
        some (assign d.plane "SRC_W"
          ((d.bufs (d.front_buf ^^^ 1)).width * 65536)) ∧
      (req_items (modeset_atomic_prepare_commit d req).2)[(req_items req).length + 8]? =
        some (assign d.plane "SRC_H"
          ((d.bufs (d.front_buf ^^^ 1)).height * 65536))) ∧
    ∀ req : drmModeAtomicReqPtr, d.connector.id ≠ 0 → d.crtc.id ≠ 0 →
      d.plane.id ≠ 0 → carries d.connector "CRTC_ID" →
      carries d.crtc "MODE_ID" → carries d.crtc "ACTIVE" →
      (∀ n ∈ plane_property_names, carries d.plane n) → has_room req 13 →
      (modeset_atomic_prepare_commit d req).1 = 0 := by
  have hdims := device_create_dims drm res conn o dl dev hcreate
  rw [← hd] at hdims
  have hback : (d.bufs (d.front_buf ^^^ 1)).width = (first_mode conn).hdisplay ∧
      (d.bufs (d.front_buf ^^^ 1)).height = (first_mode conn).vdisplay := by
    unfold buf_dims at hdims
    simp only [Prod.mk.injEq] at hdims
    rcases hf with h0 | h1
    · rw [h0]
      exact ⟨hdims.2.1, hdims.2.2⟩
    · rw [h1]
      exact ⟨hdims.1.1, hdims.1.2⟩
  have ew := shift16_exact _ (hback.1 ▸ hw)
  have eh := shift16_exact _ (hback.2 ▸ hh)
  refine ⟨?_, ?_, hback.1, hback.2, ?_, ?_, ?_, ?_⟩
  · simp only [commit_assignments, ew]
    rfl
  · simp only [commit_assignments, eh]
    rfl
  · rw [hback.1]; omega
  · rw [hback.2]; omega
  · intro req hok
    rw [prepare_commit_items d req hok]
    simp only [commit_items, ew, eh]
    constructor
    · rw [List.getElem?_append_right (by omega)]
      simp
    · rw [List.getElem?_append_right (by omega)]
      simp
  · intro req hci hri hpi hconn hmode hact hplane hroom
    exact prepare_commit_ok d req hci hri hpi hconn hmode hact hplane hroom

theorem src_size_exact_witness :
    (modeset_device_create ex_two_outputs ex_res ex_conn_bound (ex_create_ok 0)
      []).1 = some ex_device ∧
    (first_mode ex_conn_bound).hdisplay < 2 ^ 16 ∧
    (first_mode ex_conn_bound).vdisplay < 2 ^ 16 ∧
    (commit_assignments ex_device_flipped)[7]? =
      some (ex_device_flipped.plane, "SRC_W", 1920 * 65536) ∧
    (commit_assignments ex_device_flipped)[8]? =
      some (ex_device_flipped.plane, "SRC_H", 1080 * 65536) ∧
    (modeset_atomic_prepare_commit ex_device_flipped ex_req).1 = 0 ∧
    (req_items (modeset_atomic_prepare_commit ex_device_flipped ex_req).2)[
        (req_items ex_req).length + 7]? =
      some { object_id := 30, property_id := 11, value := 125829120 } :=
  have h := src_size_exact ex_two_outputs ex_res ex_conn_bound (ex_create_ok 0)
    [] ex_device ex_device_flipped (by decide) (by decide) (by decide)
    (by decide) (Or.inr rfl)
  ⟨by decide, by decide, by decide, h.1.trans (by decide), h.2.1.trans (by decide),
    by decide, (h.2.2.2.2.2.2.1 ex_req (by decide)).1.trans (by decide)⟩

end Modeset
